import Mathlib

/-!
# Verification of the Revbox ingestion & reconciliation pipeline

Shallow embedding of `src/backend/server.py`: the tabular extractor,
field mapper, conflict detector, record lifecycle endpoints
(validate / reject / resolve-conflict), payout generator and export
endpoint, together with theorems settling the frozen claims about them.

Modelling conventions:
* Python values that flow through rows and documents are modelled by
  `PyVal` (`null` is Python `None`; `num` models Python floats as exact
  rationals; `dict` models nested dictionaries such as the `_raw`
  payload).  Python float string formatting and `repr` of dictionaries
  are abstracted by deterministic stand-ins; no claim depends on them.
* Python dictionaries are association lists with unique-key update
  (`aset` replaces in place, preserving insertion order, exactly like a
  CPython dict write).
* MongoDB collections are Lean lists in insertion order; `find_one` is
  `List.find?`, `update_one` updates the first match, `update_many`
  maps over all matches, `insert_one` appends.
* `uuid4` id generation and timestamps are irrelevant to every claim;
  fresh ids are passed in explicitly and timestamps are omitted.
-/

set_option maxRecDepth 10000

namespace Revbox

/-- A Python value as it appears in rows, mapped data and documents. -/
inductive PyVal where
  | null
  | str (s : String)
  | int (n : Int)
  | num (q : Rat)
  | dict (entries : List (String × PyVal))

/-- Decidable structural equality for `PyVal`. -/
def PyVal.deq : (a b : PyVal) → Decidable (a = b)
  | .null, .null => isTrue rfl
  | .str a, .str b =>
    match decEq a b with
    | isTrue h => isTrue (by rw [h])
    | isFalse h => isFalse (by intro hc; cases hc; exact h rfl)
  | .int a, .int b =>
    match decEq a b with
    | isTrue h => isTrue (by rw [h])
    | isFalse h => isFalse (by intro hc; cases hc; exact h rfl)
  | .num a, .num b =>
    match decEq a b with
    | isTrue h => isTrue (by rw [h])
    | isFalse h => isFalse (by intro hc; cases hc; exact h rfl)
  | .dict a, .dict b =>
    match deqEntries a b with
    | isTrue h => isTrue (by rw [h])
    | isFalse h => isFalse (by intro hc; cases hc; exact h rfl)
  | .null, .str _ => isFalse (by intro h; cases h)
  | .null, .int _ => isFalse (by intro h; cases h)
  | .null, .num _ => isFalse (by intro h; cases h)
  | .null, .dict _ => isFalse (by intro h; cases h)
  | .str _, .null => isFalse (by intro h; cases h)
  | .str _, .int _ => isFalse (by intro h; cases h)
  | .str _, .num _ => isFalse (by intro h; cases h)
  | .str _, .dict _ => isFalse (by intro h; cases h)
  | .int _, .null => isFalse (by intro h; cases h)
  | .int _, .str _ => isFalse (by intro h; cases h)
  | .int _, .num _ => isFalse (by intro h; cases h)
  | .int _, .dict _ => isFalse (by intro h; cases h)
  | .num _, .null => isFalse (by intro h; cases h)
  | .num _, .str _ => isFalse (by intro h; cases h)
  | .num _, .int _ => isFalse (by intro h; cases h)
  | .num _, .dict _ => isFalse (by intro h; cases h)
  | .dict _, .null => isFalse (by intro h; cases h)
  | .dict _, .str _ => isFalse (by intro h; cases h)
  | .dict _, .int _ => isFalse (by intro h; cases h)
  | .dict _, .num _ => isFalse (by intro h; cases h)
where
  deqEntries : (a b : List (String × PyVal)) → Decidable (a = b)
  | [], [] => isTrue rfl
  | [], _ :: _ => isFalse (by intro h; cases h)
  | _ :: _, [] => isFalse (by intro h; cases h)
  | (k₁, v₁) :: r₁, (k₂, v₂) :: r₂ =>
    match decEq k₁ k₂, PyVal.deq v₁ v₂, deqEntries r₁ r₂ with
    | isTrue h₁, isTrue h₂, isTrue h₃ => isTrue (by rw [h₁, h₂, h₃])
    | isFalse h₁, _, _ => isFalse (by intro hc; cases hc; exact h₁ rfl)
    | _, isFalse h₂, _ => isFalse (by intro hc; cases hc; exact h₂ rfl)
    | _, _, isFalse h₃ => isFalse (by intro hc; cases hc; exact h₃ rfl)

instance : DecidableEq PyVal := PyVal.deq

/-- A Python dictionary with string keys, in insertion order. -/
abbrev Row := List (String × PyVal)

/-- `m[k]` / `m.get(k)`: value of the first entry with key `k`. -/
def alookup : Row → String → Option PyVal
  | [], _ => Option.none
  | (k, v) :: rest, key => if k = key then some v else alookup rest key

/-- `m.get(k, d)`: lookup with a default. -/
def agetD (m : Row) (k : String) (d : PyVal) : PyVal :=
  (alookup m k).getD d

/-- `m[k] = v`: CPython dict write — overwrites in place if the key is
present (keeping its position), else appends. -/
def aset : Row → String → PyVal → Row
  | [], k, v => [(k, v)]
  | (k', v') :: rest, k, v =>
    if k' = k then (k, v) :: rest else (k', v') :: aset rest k v

/-- Is this value Python `None`? -/
def isNull : PyVal → Bool
  | .null => true
  | _ => false

/-- Python truthiness (`if v:`). -/
def pyTruthy : PyVal → Bool
  | .null => false
  | .str s => !s.isEmpty
  | .int n => n != 0
  | .num q => q != 0
  | .dict d => !d.isEmpty

/-- Python `a or b`: `a` if truthy, else `b`. -/
def pyOr (a b : PyVal) : PyVal :=
  if pyTruthy a then a else b

/-- `s.startswith(c)` for a one-character prefix, computed on the
character list (same semantics as `String.startsWith`, stated this way
so that proofs can evaluate it). -/
def startsWithChar (c : Char) (s : String) : Bool :=
  match s.data with
  | d :: _ => d == c
  | [] => false

/-- Drop leading whitespace characters. -/
def dropLeadingWs : List Char → List Char
  | [] => []
  | c :: cs => if c.isWhitespace then dropLeadingWs cs else c :: cs

/-- Python `s.strip()` (same semantics as `String.trim`). -/
def pyStrip (s : String) : String :=
  ⟨(dropLeadingWs ((dropLeadingWs s.data).reverse)).reverse⟩

/-- Python `s.lower()` (same semantics as `String.toLower`). -/
def lowerString (s : String) : String :=
  ⟨s.data.map Char.toLower⟩

/-- `s.split(".")` on the character list (same semantics as
`String.splitOn "."`). -/
def splitDot : List Char → List (List Char)
  | [] => [[]]
  | c :: cs =>
    if c = '.' then [] :: splitDot cs
    else
      match splitDot cs with
      | p :: ps => (c :: p) :: ps
      | [] => [[c]]

/-- Python `str(v)`.  Exact for strings and integers (the only cases the
claims compare); float formatting and dict `repr` are abstracted by
deterministic stand-ins. -/
def pyStr : PyVal → String
  | .null => "None"
  | .str s => s
  | .int n => toString n
  | .num q => toString q
  | .dict _ => "<dict>"

/-- Digits of a decimal literal, or `none` if empty / non-digit. -/
def digitsToNat? (cs : List Char) : Option Nat :=
  match cs with
  | [] => Option.none
  | _ =>
    cs.foldl
      (fun acc c =>
        acc.bind fun n => if c.isDigit then some (n * 10 + (c.toNat - 48)) else Option.none)
      (some 0)

/-- Python `float(s)` restricted to plain decimal literals
(optional sign, digits, optional fractional part); other strings —
for which CPython would raise — yield `none`. -/
def parseFloat? (s : String) : Option Rat :=
  let t := (pyStrip s).data
  let neg := match t with | '-' :: _ => true | _ => false
  let body := match t with | '-' :: rest => rest | other => other
  match splitDot body with
  | [w] =>
    (digitsToNat? w).map fun n => if neg then -(n : Rat) else (n : Rat)
  | [w, f] =>
    (digitsToNat? w).bind fun wn =>
      (digitsToNat? f).map fun fn =>
        let q : Rat := (wn : Rat) + (fn : Rat) / ((10 : Rat) ^ f.length)
        if neg then -q else q
  | _ => Option.none

/-- Python `float(v)`; `none` models the conversions on which CPython
raises (`None`, dicts, malformed strings). -/
def pyFloat? : PyVal → Option Rat
  | .null => Option.none
  | .int n => some (n : Rat)
  | .num q => some q
  | .str s => parseFloat? s
  | .dict _ => Option.none

/-- `update_one`: rewrite the first element satisfying `p`. -/
def updateFirst {α : Type} (l : List α) (p : α → Bool) (f : α → α) : List α :=
  match l with
  | [] => []
  | x :: xs => if p x then f x :: xs else x :: updateFirst xs p f

/-! ## Tabular Extractor (`extract_excel_data`, server.py lines 432-483) -/

/-- An openpyxl worksheet: cell values in row-major order.  `PyVal.null`
is an empty cell; reads outside the stored area yield `null`, exactly as
`sheet.cell(row, col).value` does. -/
structure Sheet where
  cells : List (List PyVal)

/-- `sheet.max_row`. -/
def Sheet.maxRow (s : Sheet) : Nat := s.cells.length

/-- `sheet.max_column`. -/
def Sheet.maxCol (s : Sheet) : Nat :=
  s.cells.foldr (fun r m => max r.length m) 0

/-- `sheet.cell(row=r, column=c).value`, 1-indexed. -/
def Sheet.cell (s : Sheet) (r c : Nat) : PyVal :=
  (((s.cells.get? (r - 1)).getD []).get? (c - 1)).getD PyVal.null

/-- The test `v is not None and str(v).strip()` applied to one cell
during header detection. -/
def cellNonEmpty (v : PyVal) : Bool :=
  !isNull v && !(pyStrip (pyStr v)).isEmpty

/-- Number of non-empty cells of row `r` among the columns inspected by
header detection: `range(1, min(50, sheet.max_column + 1))`. -/
def countNonEmptyCells (s : Sheet) (r : Nat) : Nat :=
  ((List.range' 1 (min 50 (s.maxCol + 1) - 1)).map (fun c => s.cell r c)).countP cellNonEmpty

/-- Header detection when no explicit header row is configured:
first row of `range(1, min(20, sheet.max_row + 1))` with at least 5
non-empty cells, defaulting to 1. -/
def detectHeaderRow (s : Sheet) : Nat :=
  match (List.range' 1 (min 20 (s.maxRow + 1) - 1)).find?
      (fun r => decide (5 ≤ countNonEmptyCells s r)) with
  | some r => r
  | Option.none => 1

/-- The header row actually used: explicit if configured, else detected. -/
def headerRowOf (s : Sheet) (headerRowCfg : Option Nat) : Nat :=
  match headerRowCfg with
  | some h => h
  | Option.none => detectHeaderRow s

/-- The data-start row actually used: explicit if configured, else
header row + 1. -/
def startRowOf (s : Sheet) (headerRowCfg startRowCfg : Option Nat) : Nat :=
  match startRowCfg with
  | some r => r
  | Option.none => headerRowOf s headerRowCfg + 1

/-- Header extraction: for every column up to `max_column`,
`str(val).strip() if val else f"column_N"`. -/
def extractHeaders (s : Sheet) (headerRow : Nat) : List String :=
  (List.range' 1 s.maxCol).map fun c =>
    let val := s.cell headerRow c
    if pyTruthy val then pyStrip (pyStr val) else "column_" ++ toString c

/-- The cell values of data row `r`:
`[sheet.cell(row, col).value for col in range(1, max_column + 1)]`. -/
def rowVals (s : Sheet) (r : Nat) : List PyVal :=
  (List.range' 1 s.maxCol).map (fun c => s.cell r c)

/-- `row_data`: for `i, val in enumerate(row_values)`, if
`i < len(headers)` set `row_data[headers[i]] = val`. -/
def buildRowData (headers : List String) (rowValues : List PyVal) : Row :=
  go 0 [] rowValues
where
  go : Nat → Row → List PyVal → Row
  | _, acc, [] => acc
  | i, acc, v :: vs =>
    go (i + 1) (if i < headers.length then aset acc (headers.getD i "") v else acc) vs

/-- Count of non-null values of a built row
(`sum(1 for v in row_data.values() if v is not None)`). -/
def countNonNull (m : Row) : Nat :=
  (m.filter fun p => !isNull p.2).length

/-- `extract_excel_data`: pick header/data-start rows, extract headers,
then for each row from data-start to `max_row` skip all-empty rows and
keep rows with at least 3 non-null mapped values, in sheet order. -/
def extract_excel_data (s : Sheet) (headerRowCfg startRowCfg : Option Nat) : List Row :=
  let headerRow := headerRowOf s headerRowCfg
  let startRow := startRowOf s headerRowCfg startRowCfg
  let headers := extractHeaders s headerRow
  (List.range' startRow (s.maxRow + 1 - startRow)).filterMap fun r =>
    let rowValues := rowVals s r
    if rowValues.all isNull then Option.none
    else
      let rowData := buildRowData headers rowValues
      if 3 ≤ countNonNull rowData then some rowData else Option.none

/-! ## Field Mapper (`apply_field_mappings`, server.py lines 541-557) -/

/-- `apply_field_mappings`: for each (source, target) mapping pair, copy
the raw value under the target name — exact key match first, then the
first case-insensitive match — then attach the entire original raw row
under the reserved key `_raw`. -/
def apply_field_mappings (raw_data : Row) (mappings : List (String × String)) : Row :=
  let mapped := mappings.foldl
    (fun acc st =>
      match alookup raw_data st.1 with
      | some v => aset acc st.2 v
      | Option.none =>
        match raw_data.find? (fun p => lowerString p.1 == lowerString st.1) with
        | some p => aset acc st.2 p.2
        | Option.none => acc)
    []
  aset mapped "_raw" (PyVal.dict raw_data)

/-! ## Data model: persisted documents and the datastore -/

/-- A `carriers` document (the fields the pipeline reads). -/
structure CarrierDoc where
  id : String
  name : String
  primaryKeyFields : List String
  fieldMappings : List (String × String)

/-- In-detector conflict summary as built by `detect_conflicts`
(the dicts appended to its `conflicts` list).  For a `duplicate` the
source dict carries no `existing_value` / `new_value` keys, so the
later `conflict.get(...)` reads yield `None`: modelled by storing
`PyVal.null` there and `message` for the duplicate text. -/
structure RawConflict where
  ctype : String
  field : String
  existingValue : PyVal
  newValue : PyVal
  existingRecordId : String
  message : Option String
  deriving DecidableEq

/-- An `extracted_records` document. -/
structure RecordDoc where
  id : String
  uploadId : String
  carrierId : String
  rawData : Row
  mappedData : Row
  status : String
  conflicts : List RawConflict
  deriving DecidableEq

/-- A `conflicts` document. -/
structure ConflictDoc where
  id : String
  recordId : String
  uploadId : String
  existingRecordId : Option String
  conflictType : String
  fieldName : String
  currentValue : PyVal
  newValue : PyVal
  status : String
  resolution : Option String
  deriving DecidableEq

/-- An `agents` document (the fields the payout generator reads). -/
structure AgentDoc where
  id : String
  agentCode : String
  name : String
  commissionRate : Rat
  totalPayouts : Rat
  deriving DecidableEq

/-- A `payouts` document. -/
structure PayoutDoc where
  id : String
  recordId : String
  agentId : Option String
  agentName : String
  carrierId : String
  carrierName : String
  policyNumber : String
  amount : Rat
  commission : Rat
  status : String
  mappedData : Row
  deriving DecidableEq

/-- The datastore: each collection in insertion order. -/
structure DB where
  carriers : List CarrierDoc
  agents : List AgentDoc
  records : List RecordDoc
  conflicts : List ConflictDoc
  payouts : List PayoutDoc

/-! ## Conflict Detector (`detect_conflicts`, server.py lines 559-600) -/

/-- One MongoDB equality condition `{"mapped_data.pk": v}` evaluated on
a document: a `null` query value matches a missing field or a stored
`null`; numeric values compare across int/float (BSON numeric
comparison); other values compare structurally. -/
def mongoFieldMatches (doc : Row) (field : String) (qv : PyVal) : Bool :=
  match alookup doc field with
  | Option.none => isNull qv
  | some dv => mongoValEq dv qv
where
  /-- BSON value equality with numeric type coercion. -/
  mongoValEq : PyVal → PyVal → Bool
  | .int a, .num b => (a : Rat) == b
  | .num a, .int b => a == (b : Rat)
  | a, b => a == b

/-- The primary-key conditions collected by `detect_conflicts`: one per
primary key actually present in the new row's `mapped_data`. -/
def pkConditions (mappedData : Row) (primaryKeys : List String) : List (String × PyVal) :=
  primaryKeys.filterMap fun pk => (alookup mappedData pk).map fun v => (pk, v)

/-- Whether an existing record matches the detector's query.  When the
condition list is empty no `$or` key is added, so the query degenerates
to the carrier + status filter alone. -/
def matchesQuery (r : RecordDoc) (carrierId : String) (conds : List (String × PyVal)) : Bool :=
  r.carrierId == carrierId && (r.status == "validated" || r.status == "pending") &&
    (match conds with
     | [] => true
     | _ => conds.any fun c => mongoFieldMatches r.mappedData c.1 c.2)

/-- `db.extracted_records.find_one(query)`: first record (in store
order) matching the detector's query. -/
def findMatch (db : DB) (mappedData : Row) (carrierId : String)
    (primaryKeys : List String) : Option RecordDoc :=
  db.records.find? fun r => matchesQuery r carrierId (pkConditions mappedData primaryKeys)

/-- The field-mismatch check performed for one `mapped_data` entry of
the new record against the matched existing record. -/
def mismatchOf (existing : RecordDoc) (entry : String × PyVal) : Option RawConflict :=
  if startsWithChar '_' entry.1 then Option.none
  else
    let existingValue := agetD existing.mappedData entry.1 PyVal.null
    if !isNull existingValue && !isNull entry.2 && pyStr existingValue != pyStr entry.2 then
      some ⟨"mismatch", entry.1, existingValue, entry.2, existing.id, Option.none⟩
    else Option.none

/-- The whole-record duplicate signal emitted when a match exists but no
field-level mismatch was found. -/
def duplicateOf (existing : RecordDoc) : RawConflict :=
  ⟨"duplicate", "record", PyVal.null, PyVal.null, existing.id,
    some "Potential duplicate record found"⟩

/-- `detect_conflicts`: find the first existing validated-or-pending
record of the carrier matching any present primary key; per match emit a
mismatch for every non-reserved field non-null in both records whose
stringified values differ, or a single duplicate signal if none. -/
def detect_conflicts (db : DB) (mappedData : Row) (carrierId : String)
    (primaryKeys : List String) : List RawConflict :=
  match findMatch db mappedData carrierId primaryKeys with
  | Option.none => []
  | some existing =>
    let conflicts := mappedData.filterMap (mismatchOf existing)
    if conflicts.isEmpty then [duplicateOf existing] else conflicts

/-! ## Record ingestion (loop body of `create_upload`, server.py lines 666-703) -/

/-- The persisted `conflicts` document built from one detector summary
(`conflict_doc` in `create_upload`). -/
def conflictDocOf (recordId uploadId cid : String) (c : RawConflict) : ConflictDoc :=
  { id := cid, recordId := recordId, uploadId := uploadId,
    existingRecordId := some c.existingRecordId, conflictType := c.ctype,
    fieldName := c.field, currentValue := c.existingValue, newValue := c.newValue,
    status := "pending", resolution := Option.none }

/-- One iteration of the ingestion loop: map the raw row, run the
detector, set status `conflict`/`pending`, persist the conflict
documents and the record.  `conflictIds` supplies the generated ids. -/
def ingestRecord (db : DB) (carrier : CarrierDoc) (uploadId recordId : String)
    (conflictIds : Nat → String) (raw : Row) : DB × RecordDoc :=
  let mappedData := apply_field_mappings raw carrier.fieldMappings
  let conflicts := detect_conflicts db mappedData carrier.id carrier.primaryKeyFields
  let record : RecordDoc :=
    { id := recordId, uploadId := uploadId, carrierId := carrier.id,
      rawData := raw, mappedData := mappedData,
      status := if conflicts.isEmpty then "pending" else "conflict",
      conflicts := conflicts }
  let conflictDocs := conflicts.enum.map fun ic =>
    conflictDocOf recordId uploadId (conflictIds ic.1) ic.2
  ({ db with conflicts := db.conflicts ++ conflictDocs,
             records := db.records ++ [record] }, record)

/-! ## Record lifecycle endpoints (server.py lines 848-879, 1037-1085) -/

/-- An HTTPException surfaced to the caller. -/
structure Http where
  status : Nat
  detail : String
  deriving DecidableEq

/-- `PUT /records/record_id/validate`: 404 when the record does not
exist; otherwise set its status to `validated` and mark every conflict
referencing it `resolved`. -/
def validate_record (db : DB) (recordId : String) : Except Http (DB × String) :=
  match db.records.find? (fun r => r.id == recordId) with
  | Option.none => Except.error ⟨404, "Record not found"⟩
  | some _ =>
    Except.ok
      ({ db with
          records := updateFirst db.records (fun r => r.id == recordId)
            (fun r => { r with status := "validated" }),
          conflicts := db.conflicts.map fun c =>
            if c.recordId == recordId then { c with status := "resolved" } else c },
        "Record validated")

/-- `PUT /records/record_id/reject`: no existence check — update the
first record with this id (a no-op when none exists), mark its conflicts
`rejected`, and report success unconditionally. -/
def reject_record (db : DB) (recordId : String) : DB × String :=
  ({ db with
      records := updateFirst db.records (fun r => r.id == recordId)
        (fun r => { r with status := "rejected" }),
      conflicts := db.conflicts.map fun c =>
        if c.recordId == recordId then { c with status := "rejected" } else c },
    "Record rejected")

/-- The data effect of a resolution choice on the owning record
(`accept_new` / `manual` overwrite the conflicted mapped field;
anything else changes no data). -/
def applyResolution (db : DB) (conflict : ConflictDoc) (resolution : String)
    (manualValue : PyVal) : DB :=
  if resolution == "accept_new" then
    match db.records.find? (fun r => r.id == conflict.recordId) with
    | some _ =>
      if !conflict.fieldName.isEmpty then
        let updated := updateFirst db.records (fun r => r.id == conflict.recordId)
          (fun r => { r with mappedData := aset r.mappedData conflict.fieldName conflict.newValue })
        { db with records := updated }
      else db
    | Option.none => db
  else if resolution == "manual" && !isNull manualValue then
    match db.records.find? (fun r => r.id == conflict.recordId) with
    | some _ =>
      if !conflict.fieldName.isEmpty then
        let updated := updateFirst db.records (fun r => r.id == conflict.recordId)
          (fun r => { r with mappedData := aset r.mappedData conflict.fieldName manualValue })
        { db with records := updated }
      else db
    | Option.none => db
  else db

/-- The conflict-status write of `resolve_conflict`:
`{"$set": {"status": "resolved", "resolution": resolution}}` on the
first conflict with the given id. -/
def markResolved (db : DB) (conflictId resolution : String) : DB :=
  let resolved := updateFirst db.conflicts (fun c => c.id == conflictId)
    (fun c => { c with status := "resolved", resolution := some resolution })
  { db with conflicts := resolved }

/-- `count_documents({"record_id": ..., "status": "pending"})`. -/
def pendingCount (db : DB) (recordId : String) : Nat :=
  (db.conflicts.filter fun c => c.recordId == recordId && c.status == "pending").length

/-- The auto-advance at the end of `resolve_conflict`: when the owning
record has zero pending conflicts left, set its status to `pending`. -/
def advanceIfClear (db : DB) (recordId : String) : DB :=
  if pendingCount db recordId == 0 then
    let readied := updateFirst db.records (fun r => r.id == recordId)
      (fun r => { r with status := "pending" })
    { db with records := readied }
  else db

/-- `PUT /conflicts/conflict_id/resolve`: 404 when the conflict does
not exist; otherwise mark it resolved, apply the chosen data effect,
and — when the owning record has no `pending` conflict left — set the
record's status to `pending`. -/
def resolve_conflict (db : DB) (conflictId : String) (resolution : String)
    (manualValue : PyVal) : Except Http (DB × String) :=
  match db.conflicts.find? (fun c => c.id == conflictId) with
  | Option.none => Except.error ⟨404, "Conflict not found"⟩
  | some conflict =>
    let db2 := applyResolution (markResolved db conflictId resolution) conflict
      resolution manualValue
    Except.ok (advanceIfClear db2 conflict.recordId, "Conflict resolved")

/-! ## Payout Generator (`generate_payouts`, server.py lines 1091-1149) -/

/-- `mapped.get("agent_code") or mapped.get("agent_id") or
mapped.get("producer_code")`. -/
def payoutAgentCode (mapped : Row) : PyVal :=
  pyOr (agetD mapped "agent_code" PyVal.null)
    (pyOr (agetD mapped "agent_id" PyVal.null) (agetD mapped "producer_code" PyVal.null))

/-- `mapped.get("amount", 0) or mapped.get("premium", 0) or
mapped.get("payout_amount", 0) or 0`: the value handed to `float`. -/
def payoutAmountVal (mapped : Row) : PyVal :=
  pyOr (agetD mapped "amount" (PyVal.int 0))
    (pyOr (agetD mapped "premium" (PyVal.int 0))
      (pyOr (agetD mapped "payout_amount" (PyVal.int 0)) (PyVal.int 0)))

/-- `str(mapped.get("policy_number", "") or mapped.get("policy_id", "") or "")`. -/
def payoutPolicyNumber (mapped : Row) : String :=
  pyStr (pyOr (agetD mapped "policy_number" (PyVal.str ""))
    (pyOr (agetD mapped "policy_id" (PyVal.str "")) (PyVal.str "")))

/-- `POST /payouts/generate`: for each id, process the record only if
its status is exactly `validated`; resolve an agent, compute amount and
commission, insert one payout, increment the agent's running total, and
mark the record `processed`.  Returns the updated store, the number of
payouts created, and whether the request aborted with an exception
(`float(...)` raising on a malformed amount), in which case the writes
already performed persist. -/
def generate_payouts (db : DB) (recordIds : List String) (fresh : Nat → String) :
    DB × Nat × Bool :=
  go db 0 recordIds
where
  go (db : DB) (created : Nat) : List String → DB × Nat × Bool
  | [] => (db, created, false)
  | recordId :: rest =>
    match db.records.find? (fun r => r.id == recordId && r.status == "validated") with
    | Option.none => go db created rest
    | some record =>
      let mapped := record.mappedData
      let carrier := db.carriers.find? fun c => c.id == record.carrierId
      let agentCode := payoutAgentCode mapped
      let agent :=
        if pyTruthy agentCode then db.agents.find? (fun a => a.agentCode == pyStr agentCode)
        else Option.none
      match pyFloat? (payoutAmountVal mapped) with
      | Option.none => (db, created, true)
      | some amount =>
        let commissionRate := match agent with | some a => a.commissionRate | Option.none => 0
        let commission := amount * (commissionRate / 100)
        let payout : PayoutDoc :=
          { id := fresh created, recordId := recordId,
            agentId := (agent.map fun a => a.id),
            agentName := match agent with | some a => a.name | Option.none => "Unknown",
            carrierId := record.carrierId,
            carrierName := match carrier with | some c => c.name | Option.none => "Unknown",
            policyNumber := payoutPolicyNumber mapped,
            amount := amount, commission := commission, status := "pending",
            mappedData := mapped }
        let db := { db with payouts := db.payouts ++ [payout] }
        let db :=
          match agent with
          | some a =>
            let bumped := updateFirst db.agents (fun x => x.id == a.id)
              (fun x => { x with totalPayouts := x.totalPayouts + amount })
            { db with agents := bumped }
          | Option.none => db
        let processed := updateFirst db.records (fun r => r.id == recordId)
          (fun r => { r with status := "processed" })
        let db := { db with records := processed }
        go db (created + 1) rest

/-! ## Export (`export_approved_data`, server.py lines 943-1035) -/

/-- Insert a string into a sorted list (used to model Python
`sorted(...)` over the collected field names). -/
def insertSorted (x : String) : List String → List String
  | [] => [x]
  | y :: ys => if x ≤ y then x :: y :: ys else y :: insertSorted x ys

/-- `sorted(list(all_fields))` where `all_fields` is the set of
non-reserved `mapped_data` keys across the export set. -/
def exportFields (records : List RecordDoc) : List String :=
  let allFields := records.foldl
    (fun acc r => (r.mappedData.map Prod.fst).foldl
      (fun acc k => if !startsWithChar '_' k && !acc.contains k then acc ++ [k] else acc) acc)
    []
  allFields.foldr insertSorted []

/-- An export payload: the JSON row list, the Zoho mapping (abstracted
to the subset of lookups the claims could observe), or the CSV header
and stringified rows (`DictWriter` serialization abstracted to the
field list plus one list of cells per record). -/
inductive ExportResult where
  | json (count : Nat) (data : List (List (String × PyVal)))
  | zoho (count : Nat) (data : List (List (String × PyVal)))
  | csv (count : Nat) (fields : List String) (rows : List (List String))
  deriving DecidableEq

/-- The Zoho CRM row built from one record's `mapped_data`
(`Import_Date`, a wall-clock timestamp, is abstracted as `""`). -/
def zohoRow (mapped : Row) : List (String × PyVal) :=
  [("AC_Account_Number", pyOr (agetD mapped "broker_id" PyVal.null) (agetD mapped "agent_code" (PyVal.str ""))),
   ("Account_Name", pyOr (agetD mapped "broker_name" PyVal.null) (agetD mapped "agent_name" (PyVal.str ""))),
   ("Account_Owner", PyVal.str ""),
   ("Account_Type", PyVal.str "Brokers - Member"),
   ("Entity_Type", PyVal.str "LLC"),
   ("Primary_Contact", agetD mapped "agent_name" (PyVal.str "")),
   ("Email", agetD mapped "email" (PyVal.str "")),
   ("Mobile", agetD mapped "phone" (PyVal.str "")),
   ("Mailing_Street", agetD mapped "address" (PyVal.str "")),
   ("Mailing_City", agetD mapped "city" (PyVal.str "")),
   ("Mailing_State", agetD mapped "state" (PyVal.str "")),
   ("Mailing_Zip", agetD mapped "zip" (PyVal.str "")),
   ("New_WP", pyOr (agetD mapped "new_wp" PyVal.null) (agetD mapped "new_written_premium" (PyVal.str ""))),
   ("Total_WP", pyOr (agetD mapped "total_wp" PyVal.null) (pyOr (agetD mapped "premium" PyVal.null) (agetD mapped "amount" (PyVal.str "")))),
   ("Earned_Premium", agetD mapped "earned" (PyVal.str "")),
   ("Incurred", agetD mapped "incurred" (PyVal.str "")),
   ("Loss_Ratio", agetD mapped "loss_ratio" (PyVal.str "")),
   ("Policy_Type", agetD mapped "policy_type" (PyVal.str "")),
   ("PG_Code", agetD mapped "pg_code" (PyVal.str "")),
   ("Record_Source", PyVal.str "Rev-Box Import"),
   ("Import_Date", PyVal.str "")]

/-- Does a record pass the export query `{"status": "validated"}` plus
the optional carrier filter? -/
def exportSelected (carrierId : Option String) (r : RecordDoc) : Bool :=
  r.status == "validated" &&
    (match carrierId with
     | Option.none => true
     | some cid => r.carrierId == cid)

/-- `GET /export/approved`: select validated records (optionally by
carrier); 404 when none; otherwise produce the requested shape. -/
def export_approved_data (db : DB) (format : String) (carrierId : Option String) :
    Except Http ExportResult :=
  let records := db.records.filter (exportSelected carrierId)
  if records.isEmpty then Except.error ⟨404, "No approved data to export"⟩
  else
    let fields := exportFields records
    if format == "json" then
      Except.ok (ExportResult.json records.length
        (records.map fun r =>
          ("_record_id", PyVal.str r.id) ::
            fields.map fun f => (f, agetD r.mappedData f PyVal.null)))
    else if format == "zoho" then
      Except.ok (ExportResult.zoho records.length (records.map fun r => zohoRow r.mappedData))
    else
      Except.ok (ExportResult.csv records.length fields
        (records.map fun r => fields.map fun f =>
          match alookup r.mappedData f with
          | some v => if isNull v then "" else pyStr v
          | Option.none => ""))

/-! ## General lemmas about the store primitives -/

theorem find?_append_cons {α : Type} (l₁ l₂ : List α) (x : α) (p : α → Bool)
    (h₁ : ∀ y ∈ l₁, p y = false) (hx : p x = true) :
    (l₁ ++ x :: l₂).find? p = some x := by
  induction l₁ with
  | nil => simp [List.find?, hx]
  | cons a l ih =>
    have ha : p a = false := h₁ a (by simp)
    simp only [List.cons_append, List.find?, ha]
    exact ih fun y hy => h₁ y (by simp [hy])

theorem updateFirst_append_cons {α : Type} (l₁ l₂ : List α) (x : α) (p : α → Bool)
    (f : α → α) (h₁ : ∀ y ∈ l₁, p y = false) (hx : p x = true) :
    updateFirst (l₁ ++ x :: l₂) p f = l₁ ++ f x :: l₂ := by
  induction l₁ with
  | nil => simp [updateFirst, hx]
  | cons a l ih =>
    have ha : p a = false := h₁ a (by simp)
    simp only [List.cons_append, updateFirst, ha]
    simp only [Bool.false_eq_true, if_false, List.cons.injEq, true_and]
    exact ih fun y hy => h₁ y (by simp [hy])

theorem updateFirst_eq_self {α : Type} (l : List α) (p : α → Bool) (f : α → α)
    (h : ∀ y ∈ l, p y = false) :
    updateFirst l p f = l := by
  induction l with
  | nil => rfl
  | cons a l ih =>
    have ha : p a = false := h a (by simp)
    simp only [updateFirst, ha, Bool.false_eq_true, if_false, List.cons.injEq, true_and]
    exact ih fun y hy => h y (by simp [hy])

theorem updateFirst_mem {α : Type} (l : List α) (p : α → Bool) (f : α → α)
    (y : α) (hy : y ∈ updateFirst l p f) :
    y ∈ l ∨ ∃ x ∈ l, p x = true ∧ y = f x := by
  induction l with
  | nil => cases hy
  | cons a l ih =>
    by_cases ha : p a = true
    · simp only [updateFirst, ha, if_true] at hy
      rcases List.mem_cons.mp hy with h | h
      · exact Or.inr ⟨a, by simp, ha, h⟩
      · exact Or.inl (List.mem_cons.mpr (Or.inr h))
    · simp only [updateFirst, ha, if_false] at hy
      rcases List.mem_cons.mp hy with h | h
      · exact Or.inl (by simp [h])
      · rcases ih h with h' | ⟨x, hx, hpx, hyx⟩
        · exact Or.inl (by simp [h'])
        · exact Or.inr ⟨x, by simp [hx], hpx, hyx⟩

theorem alookup_aset_self (m : Row) (k : String) (v : PyVal) :
    alookup (aset m k v) k = some v := by
  induction m with
  | nil => simp [aset, alookup]
  | cons p rest ih =>
    by_cases h : p.1 = k
    · simp [aset, h, alookup]
    · simp [aset, h, alookup, ih]

theorem isNull_eq_false_iff (v : PyVal) : isNull v = false ↔ v ≠ PyVal.null := by
  cases v <;> simp [isNull]

theorem isNull_eq_true_iff (v : PyVal) : isNull v = true ↔ v = PyVal.null := by
  cases v <;> simp [isNull]

theorem alookup_eq_some_of_mem (m : Row) (k : String) (v : PyVal)
    (hnd : (m.map Prod.fst).Nodup) (hmem : (k, v) ∈ m) :
    alookup m k = some v := by
  induction m with
  | nil => cases hmem
  | cons p rest ih =>
    rw [List.map_cons, List.nodup_cons] at hnd
    rcases List.mem_cons.mp hmem with h | h
    · cases h; simp [alookup]
    · have hk : p.1 ≠ k := by
        intro heq
        exact hnd.1 (by rw [heq]; exact List.mem_map.mpr ⟨(k, v), h, rfl⟩)
      simp only [alookup, if_neg hk]
      exact ih hnd.2 h

theorem mem_of_alookup_eq_some (m : Row) (k : String) (v : PyVal)
    (h : alookup m k = some v) : (k, v) ∈ m := by
  induction m with
  | nil => cases h
  | cons p rest ih =>
    by_cases hk : p.1 = k
    · simp only [alookup, hk, if_true, Option.some.injEq] at h
      subst h
      exact List.mem_cons.mpr (Or.inl (by cases p; cases hk; rfl))
    · simp only [alookup, hk, if_false] at h
      exact List.mem_cons.mpr (Or.inr (ih h))

/-- Status of the (first) record with a given id, as a later
`find_one` would report it. -/
def recordStatus (db : DB) (recordId : String) : Option String :=
  (db.records.find? fun r => r.id == recordId).map fun r => r.status

/-! ## Claim C6 — the `_raw` round trip of the Field Mapper -/

/-- C6: for every raw row and every carrier mapping, the Field Mapper
attaches the entire original raw row under the reserved `_raw` key, so
every raw field value — mapped or not — is recoverable unchanged from
the mapped record. -/
theorem apply_field_mappings_raw_roundtrip (raw : Row) (mappings : List (String × String)) :
    alookup (apply_field_mappings raw mappings) "_raw" = some (PyVal.dict raw) ∧
    (∀ k v, alookup raw k = some v →
      ∃ d, alookup (apply_field_mappings raw mappings) "_raw" = some (PyVal.dict d) ∧
        alookup d k = some v) := by
  have hraw : alookup (apply_field_mappings raw mappings) "_raw" = some (PyVal.dict raw) := by
    unfold apply_field_mappings
    exact alookup_aset_self _ _ _
  exact ⟨hraw, fun k v hkv => ⟨raw, hraw, hkv⟩⟩

/-- Closed witness for C6's recoverability conjunct. -/
theorem apply_field_mappings_raw_roundtrip_witness :
    alookup [("Policy Number", PyVal.str "P1"), ("Premium", PyVal.int 100)] "Policy Number"
      = some (PyVal.str "P1") ∧
    ∃ d,
      alookup
        (apply_field_mappings
          [("Policy Number", PyVal.str "P1"), ("Premium", PyVal.int 100)]
          [("Premium", "amount")]) "_raw" = some (PyVal.dict d) ∧
      alookup d "Policy Number" = some (PyVal.str "P1") :=
  ⟨rfl,
    (apply_field_mappings_raw_roundtrip
      [("Policy Number", PyVal.str "P1"), ("Premium", PyVal.int 100)]
      [("Premium", "amount")]).2 "Policy Number" (PyVal.str "P1") rfl⟩

/-! ## Claim C10 — reject vs validate on a nonexistent record id -/

/-- C10: rejecting a nonexistent record id succeeds with the success
message and changes no record, while validating a nonexistent record id
raises a 404 not-found error. -/
theorem reject_succeeds_validate_404_on_missing (db : DB) (recordId : String)
    (h : ∀ r ∈ db.records, r.id ≠ recordId) :
    validate_record db recordId = Except.error ⟨404, "Record not found"⟩ ∧
    (reject_record db recordId).2 = "Record rejected" ∧
    (reject_record db recordId).1.records = db.records := by
  have hfalse : ∀ r ∈ db.records, (r.id == recordId) = false := by
    intro r hr
    exact beq_eq_false_iff_ne.mpr (h r hr)
  have hfind : db.records.find? (fun r => r.id == recordId) = Option.none :=
    List.find?_eq_none.mpr fun r hr => by simp [hfalse r hr]
  refine ⟨?_, rfl, ?_⟩
  · unfold validate_record
    rw [hfind]
  · unfold reject_record
    simp only
    exact updateFirst_eq_self _ _ _ hfalse

/-- Closed witness for C10 at a store holding one unrelated record. -/
theorem reject_succeeds_validate_404_on_missing_witness :
    (∀ r ∈ ({ carriers := [], agents := [],
              records := [{ id := "r1", uploadId := "u1", carrierId := "c1",
                            rawData := [], mappedData := [], status := "pending",
                            conflicts := [] }],
              conflicts := [], payouts := [] } : DB).records, r.id ≠ "missing") ∧
    (validate_record
        { carriers := [], agents := [],
          records := [{ id := "r1", uploadId := "u1", carrierId := "c1",
                        rawData := [], mappedData := [], status := "pending",
                        conflicts := [] }],
          conflicts := [], payouts := [] } "missing"
      = Except.error ⟨404, "Record not found"⟩ ∧
     (reject_record
        { carriers := [], agents := [],
          records := [{ id := "r1", uploadId := "u1", carrierId := "c1",
                        rawData := [], mappedData := [], status := "pending",
                        conflicts := [] }],
          conflicts := [], payouts := [] } "missing").2 = "Record rejected" ∧
     (reject_record
        { carriers := [], agents := [],
          records := [{ id := "r1", uploadId := "u1", carrierId := "c1",
                        rawData := [], mappedData := [], status := "pending",
                        conflicts := [] }],
          conflicts := [], payouts := [] } "missing").1.records
      = ({ carriers := [], agents := [],
           records := [{ id := "r1", uploadId := "u1", carrierId := "c1",
                         rawData := [], mappedData := [], status := "pending",
                         conflicts := [] }],
           conflicts := [], payouts := [] } : DB).records) :=
  ⟨by decide, reject_succeeds_validate_404_on_missing _ "missing" (by decide)⟩

/-! ## Claim C8 — CSV export of zero validated records is a 404 -/

/-- C8: requesting a csv export when no record is validated (under the
optional carrier filter) returns a 404 not-found error rather than an
empty export. -/
theorem export_csv_no_validated_404 (db : DB) (carrierId : Option String)
    (h : ∀ r ∈ db.records,
      ¬(r.status = "validated" ∧ (carrierId = Option.none ∨ carrierId = some r.carrierId))) :
    export_approved_data db "csv" carrierId = Except.error ⟨404, "No approved data to export"⟩ := by
  have hsel : ∀ r ∈ db.records, exportSelected carrierId r = false := by
    intro r hr
    unfold exportSelected
    by_cases hs : r.status = "validated"
    · cases carrierId with
      | none => exact absurd ⟨hs, Or.inl rfl⟩ (h r hr)
      | some cid =>
        have : cid ≠ r.carrierId := by
          intro heq
          exact h r hr ⟨hs, Or.inr (by rw [heq])⟩
        simp [beq_eq_false_iff_ne.mpr (Ne.symm this)]
    · simp [beq_eq_false_iff_ne.mpr hs]
  have hfilter : db.records.filter (exportSelected carrierId) = [] := by
    rw [List.filter_eq_nil_iff]
    intro r hr
    simp [hsel r hr]
  unfold export_approved_data
  rw [hfilter]
  rfl

/-- Closed witness for C8: a store whose only records are pending or
rejected yields the 404. -/
theorem export_csv_no_validated_404_witness :
    (∀ r ∈ ({ carriers := [], agents := [],
              records := [{ id := "r1", uploadId := "u1", carrierId := "c1",
                            rawData := [], mappedData := [], status := "pending",
                            conflicts := [] },
                          { id := "r2", uploadId := "u1", carrierId := "c1",
                            rawData := [], mappedData := [], status := "rejected",
                            conflicts := [] }],
              conflicts := [], payouts := [] } : DB).records,
      ¬(r.status = "validated" ∧
        ((Option.none : Option String) = Option.none ∨ Option.none = some r.carrierId))) ∧
    export_approved_data
      { carriers := [], agents := [],
        records := [{ id := "r1", uploadId := "u1", carrierId := "c1",
                      rawData := [], mappedData := [], status := "pending",
                      conflicts := [] },
                    { id := "r2", uploadId := "u1", carrierId := "c1",
                      rawData := [], mappedData := [], status := "rejected",
                      conflicts := [] }],
        conflicts := [], payouts := [] } "csv" Option.none
      = Except.error ⟨404, "No approved data to export"⟩ :=
  ⟨by decide, export_csv_no_validated_404 _ Option.none (by decide)⟩

/-! ## Claims C4 and C9 — conflict resolution advances the record to `pending` -/

theorem applyResolution_conflicts_eq (db : DB) (conflict : ConflictDoc)
    (res : String) (mv : PyVal) :
    (applyResolution db conflict res mv).conflicts = db.conflicts := by
  unfold applyResolution
  split
  · split
    · split <;> rfl
    · rfl
  · split
    · split
      · split <;> rfl
      · rfl
    · rfl

theorem applyResolution_records_shape (db : DB) (conflict : ConflictDoc)
    (res : String) (mv : PyVal) (l₁ l₂ : List RecordDoc) (r₀ : RecordDoc)
    (hr : db.records = l₁ ++ r₀ :: l₂)
    (hl₁ : ∀ r ∈ l₁, r.id ≠ conflict.recordId)
    (hr₀ : r₀.id = conflict.recordId) :
    ∃ r₀', (applyResolution db conflict res mv).records = l₁ ++ r₀' :: l₂ ∧
      r₀'.id = r₀.id ∧ r₀'.status = r₀.status := by
  have hfalse : ∀ r ∈ l₁, (r.id == conflict.recordId) = false := fun r hrr =>
    beq_eq_false_iff_ne.mpr (hl₁ r hrr)
  have htrue : (r₀.id == conflict.recordId) = true := beq_iff_eq.mpr hr₀
  have hupd : ∀ f : RecordDoc → RecordDoc,
      updateFirst db.records (fun r => r.id == conflict.recordId) f = l₁ ++ f r₀ :: l₂ := by
    intro f
    rw [hr]
    exact updateFirst_append_cons l₁ l₂ r₀ _ f hfalse htrue
  unfold applyResolution
  split
  · split
    · split
      · exact ⟨_, hupd _, rfl, rfl⟩
      · exact ⟨r₀, hr, rfl, rfl⟩
    · exact ⟨r₀, hr, rfl, rfl⟩
  · split
    · split
      · split
        · exact ⟨_, hupd _, rfl, rfl⟩
        · exact ⟨r₀, hr, rfl, rfl⟩
      · exact ⟨r₀, hr, rfl, rfl⟩
    · exact ⟨r₀, hr, rfl, rfl⟩

/-- Shared core for C4 and C9: a successful resolution whose owning
record is left with zero `pending` conflicts sets that record's status
to `pending`, whatever it was before. -/
theorem resolve_conflict_sets_pending
    (db : DB) (res : String) (mv : PyVal)
    (m₁ m₂ : List ConflictDoc) (c₀ : ConflictDoc)
    (l₁ l₂ : List RecordDoc) (r₀ : RecordDoc)
    (hc : db.conflicts = m₁ ++ c₀ :: m₂)
    (hm₁ : ∀ c ∈ m₁, c.id ≠ c₀.id)
    (hr : db.records = l₁ ++ r₀ :: l₂)
    (hl₁ : ∀ r ∈ l₁, r.id ≠ c₀.recordId)
    (hr₀ : r₀.id = c₀.recordId)
    (hothers : ∀ c ∈ m₁ ++ m₂, c.recordId = c₀.recordId → c.status ≠ "pending") :
    ∃ db', resolve_conflict db c₀.id res mv = Except.ok (db', "Conflict resolved") ∧
      recordStatus db' c₀.recordId = some "pending" := by
  have hmfalse : ∀ c ∈ m₁, (c.id == c₀.id) = false := fun c hcc =>
    beq_eq_false_iff_ne.mpr (hm₁ c hcc)
  have hfind : db.conflicts.find? (fun c => c.id == c₀.id) = some c₀ := by
    rw [hc]
    exact find?_append_cons m₁ m₂ c₀ _ hmfalse (by simp)
  have hmarkconf : (markResolved db c₀.id res).conflicts
      = m₁ ++ ({ c₀ with status := "resolved", resolution := some res }) :: m₂ := by
    show updateFirst db.conflicts _ _ = _
    rw [hc]
    exact updateFirst_append_cons m₁ m₂ c₀ _ _ hmfalse (by simp)
  have hmarkrec : (markResolved db c₀.id res).records = l₁ ++ r₀ :: l₂ := hr
  obtain ⟨r₀', hshape, hid', hstat'⟩ :=
    applyResolution_records_shape (markResolved db c₀.id res) c₀ res mv l₁ l₂ r₀
      hmarkrec hl₁ hr₀
  have hdb2conf : (applyResolution (markResolved db c₀.id res) c₀ res mv).conflicts
      = m₁ ++ ({ c₀ with status := "resolved", resolution := some res }) :: m₂ := by
    rw [applyResolution_conflicts_eq, hmarkconf]
  have hpc : pendingCount (applyResolution (markResolved db c₀.id res) c₀ res mv)
      c₀.recordId = 0 := by
    unfold pendingCount
    rw [hdb2conf]
    rw [show (List.filter (fun c => c.recordId == c₀.recordId && c.status == "pending")
        (m₁ ++ ({ c₀ with status := "resolved", resolution := some res }) :: m₂)) = [] from ?_]
    · rfl
    rw [List.filter_eq_nil_iff]
    intro c hcmem
    rcases List.mem_append.mp hcmem with hA | hB
    · have hne := hothers c (List.mem_append.mpr (Or.inl hA))
      by_cases hrid : c.recordId = c₀.recordId
      · simp [beq_eq_false_iff_ne.mpr (hne hrid)]
      · simp [beq_eq_false_iff_ne.mpr hrid]
    · rcases List.mem_cons.mp hB with hEq | hC
      · subst hEq
        simp
      · have hne := hothers c (List.mem_append.mpr (Or.inr hC))
        by_cases hrid : c.recordId = c₀.recordId
        · simp [beq_eq_false_iff_ne.mpr (hne hrid)]
        · simp [beq_eq_false_iff_ne.mpr hrid]
  have hrecfalse : ∀ r ∈ l₁, (r.id == c₀.recordId) = false := fun r hrr =>
    beq_eq_false_iff_ne.mpr (hl₁ r hrr)
  have hr₀'true : (r₀'.id == c₀.recordId) = true := beq_iff_eq.mpr (hid'.trans hr₀)
  have hadv : recordStatus
      (advanceIfClear (applyResolution (markResolved db c₀.id res) c₀ res mv) c₀.recordId)
      c₀.recordId = some "pending" := by
    unfold advanceIfClear
    rw [hpc]
    simp only [Nat.reduceBEq, if_true]
    unfold recordStatus
    simp only
    rw [hshape, updateFirst_append_cons l₁ l₂ r₀' _ _ hrecfalse hr₀'true]
    rw [find?_append_cons l₁ l₂ _ _ hrecfalse (by simpa using hr₀'true)]
    rfl
  refine ⟨_, ?_, hadv⟩
  unfold resolve_conflict
  rw [hfind]

/-- C4: a record in status `conflict` whose last still-pending conflict
is resolved moves to `pending`; it neither stays `conflict` nor jumps
to `validated`. -/
theorem resolve_last_pending_conflict_to_pending
    (db : DB) (res : String) (mv : PyVal)
    (m₁ m₂ : List ConflictDoc) (c₀ : ConflictDoc)
    (l₁ l₂ : List RecordDoc) (r₀ : RecordDoc)
    (hc : db.conflicts = m₁ ++ c₀ :: m₂)
    (hm₁ : ∀ c ∈ m₁, c.id ≠ c₀.id)
    (hr : db.records = l₁ ++ r₀ :: l₂)
    (hl₁ : ∀ r ∈ l₁, r.id ≠ c₀.recordId)
    (hr₀ : r₀.id = c₀.recordId)
    (_hconfl : r₀.status = "conflict")
    (_hc₀pending : c₀.status = "pending")
    (hothers : ∀ c ∈ m₁ ++ m₂, c.recordId = c₀.recordId → c.status ≠ "pending") :
    ∃ db', resolve_conflict db c₀.id res mv = Except.ok (db', "Conflict resolved") ∧
      recordStatus db' c₀.recordId = some "pending" ∧
      recordStatus db' c₀.recordId ≠ some "conflict" ∧
      recordStatus db' c₀.recordId ≠ some "validated" := by
  obtain ⟨db', hok, hpend⟩ :=
    resolve_conflict_sets_pending db res mv m₁ m₂ c₀ l₁ l₂ r₀ hc hm₁ hr hl₁ hr₀ hothers
  exact ⟨db', hok, hpend, by rw [hpend]; simp, by rw [hpend]; simp⟩

/-- Closed witness for C4: one conflicted record with a single pending
conflict, resolved with `accept_new`. -/
theorem resolve_last_pending_conflict_to_pending_witness :
    (∀ r ∈ ([] : List RecordDoc), r.id ≠ "r1") ∧
    ∃ db', resolve_conflict
        { carriers := [], agents := [],
          records := [{ id := "r1", uploadId := "u1", carrierId := "c1",
                        rawData := [], mappedData := [("amount", PyVal.int 100)],
                        status := "conflict", conflicts := [] }],
          conflicts := [{ id := "k1", recordId := "r1", uploadId := "u1",
                          existingRecordId := some "r0", conflictType := "mismatch",
                          fieldName := "amount", currentValue := PyVal.int 100,
                          newValue := PyVal.int 150, status := "pending",
                          resolution := Option.none }],
          payouts := [] } "k1" "accept_new" PyVal.null
      = Except.ok (db', "Conflict resolved") ∧
      recordStatus db' "r1" = some "pending" ∧
      recordStatus db' "r1" ≠ some "conflict" ∧
      recordStatus db' "r1" ≠ some "validated" :=
  ⟨by simp,
    resolve_last_pending_conflict_to_pending
      { carriers := [], agents := [],
        records := [{ id := "r1", uploadId := "u1", carrierId := "c1",
                      rawData := [], mappedData := [("amount", PyVal.int 100)],
                      status := "conflict", conflicts := [] }],
        conflicts := [{ id := "k1", recordId := "r1", uploadId := "u1",
                        existingRecordId := some "r0", conflictType := "mismatch",
                        fieldName := "amount", currentValue := PyVal.int 100,
                        newValue := PyVal.int 150, status := "pending",
                        resolution := Option.none }],
        payouts := [] }
      "accept_new" PyVal.null [] [] _ [] [] _
      rfl (by simp) rfl (by simp) rfl rfl rfl (by simp)⟩

/-- C9: after any successful resolution that leaves the owning record
with zero pending conflicts, the record's status is set to `pending`
unconditionally — whatever its prior status (`validated`, `rejected`,
`processed`, ...), so those statuses are not terminal under resolve. -/
theorem resolve_resets_any_status_to_pending
    (db : DB) (res : String) (mv : PyVal)
    (m₁ m₂ : List ConflictDoc) (c₀ : ConflictDoc)
    (l₁ l₂ : List RecordDoc) (r₀ : RecordDoc)
    (hc : db.conflicts = m₁ ++ c₀ :: m₂)
    (hm₁ : ∀ c ∈ m₁, c.id ≠ c₀.id)
    (hr : db.records = l₁ ++ r₀ :: l₂)
    (hl₁ : ∀ r ∈ l₁, r.id ≠ c₀.recordId)
    (hr₀ : r₀.id = c₀.recordId)
    (hothers : ∀ c ∈ m₁ ++ m₂, c.recordId = c₀.recordId → c.status ≠ "pending") :
    ∃ db', resolve_conflict db c₀.id res mv = Except.ok (db', "Conflict resolved") ∧
      recordStatus db' c₀.recordId = some "pending" :=
  resolve_conflict_sets_pending db res mv m₁ m₂ c₀ l₁ l₂ r₀ hc hm₁ hr hl₁ hr₀ hothers

/-- Closed witness for C9: re-resolving an already-`resolved` conflict
of a `validated` record drags the record back to `pending`. -/
theorem resolve_resets_any_status_to_pending_witness :
    ("validated" : String) ≠ "pending" ∧
    ∃ db', resolve_conflict
        { carriers := [], agents := [],
          records := [{ id := "r1", uploadId := "u1", carrierId := "c1",
                        rawData := [], mappedData := [("amount", PyVal.int 150)],
                        status := "validated", conflicts := [] }],
          conflicts := [{ id := "k1", recordId := "r1", uploadId := "u1",
                          existingRecordId := some "r0", conflictType := "mismatch",
                          fieldName := "amount", currentValue := PyVal.int 100,
                          newValue := PyVal.int 150, status := "resolved",
                          resolution := some "accept_new" }],
          payouts := [] } "k1" "accept_new" PyVal.null
      = Except.ok (db', "Conflict resolved") ∧
      recordStatus db' "r1" = some "pending" :=
  ⟨by decide,
    resolve_resets_any_status_to_pending
      { carriers := [], agents := [],
        records := [{ id := "r1", uploadId := "u1", carrierId := "c1",
                      rawData := [], mappedData := [("amount", PyVal.int 150)],
                      status := "validated", conflicts := [] }],
        conflicts := [{ id := "k1", recordId := "r1", uploadId := "u1",
                        existingRecordId := some "r0", conflictType := "mismatch",
                        fieldName := "amount", currentValue := PyVal.int 100,
                        newValue := PyVal.int 150, status := "resolved",
                        resolution := some "accept_new" }],
        payouts := [] }
      "accept_new" PyVal.null [] [] _ [] [] _
      rfl (by simp) rfl (by simp) rfl (by simp)⟩

/-! ## Claim C5 — payout generation never processes a record twice -/

/-- Number of payouts referencing a given record id. -/
def payoutCountFor (db : DB) (recordId : String) : Nat :=
  (db.payouts.filter fun p => p.recordId == recordId).length

theorem generate_go_nil (fresh : Nat → String) (db : DB) (created : Nat) :
    generate_payouts.go fresh db created [] = (db, created, false) := rfl

/-- A record id with no `validated` record behind it is silently
skipped by the generator loop. -/
theorem generate_go_skip (fresh : Nat → String) (db : DB) (created : Nat)
    (recordId : String) (rest : List String)
    (h : ∀ r ∈ db.records, r.id = recordId → r.status ≠ "validated") :
    generate_payouts.go fresh db created (recordId :: rest)
      = generate_payouts.go fresh db created rest := by
  have hfind : db.records.find? (fun r => r.id == recordId && r.status == "validated")
      = Option.none := by
    rw [List.find?_eq_none]
    intro r hr
    by_cases hid : r.id = recordId
    · simp [beq_eq_false_iff_ne.mpr (h r hr hid)]
    · simp [beq_eq_false_iff_ne.mpr hid]
  rw [generate_payouts.go]
  rw [hfind]

/-- The payout document inserted for a validated record resolved to
agent `ag` with parsed amount `amt`. -/
def generatedPayout (db : DB) (r₀ : RecordDoc) (ag : AgentDoc) (amt : Rat)
    (payoutId recordId : String) : PayoutDoc :=
  { id := payoutId, recordId := recordId, agentId := some ag.id,
    agentName := ag.name, carrierId := r₀.carrierId,
    carrierName :=
      match db.carriers.find? (fun c => c.id == r₀.carrierId) with
      | some c => c.name
      | Option.none => "Unknown",
    policyNumber := payoutPolicyNumber r₀.mappedData,
    amount := amt, commission := amt * (ag.commissionRate / 100),
    status := "pending", mappedData := r₀.mappedData }

/-- One generator iteration on a `validated` record with a resolvable
agent: one payout is appended for that record id, the agent's running
total is incremented by the parsed amount, and the record is marked
`processed`. -/
theorem generate_go_process (fresh : Nat → String) (db : DB) (created : Nat)
    (recordId : String) (rest : List String)
    (l₁ l₂ : List RecordDoc) (r₀ : RecordDoc)
    (a₁ a₂ : List AgentDoc) (ag : AgentDoc) (amt : Rat)
    (hr : db.records = l₁ ++ r₀ :: l₂)
    (hl₁ : ∀ r ∈ l₁, r.id ≠ recordId)
    (hid : r₀.id = recordId) (hstat : r₀.status = "validated")
    (hamt : pyFloat? (payoutAmountVal r₀.mappedData) = some amt)
    (hcode : pyTruthy (payoutAgentCode r₀.mappedData) = true)
    (hagents : db.agents = a₁ ++ ag :: a₂)
    (ha₁ : ∀ a ∈ a₁, a.agentCode ≠ pyStr (payoutAgentCode r₀.mappedData))
    (hagcode : ag.agentCode = pyStr (payoutAgentCode r₀.mappedData))
    (ha₁id : ∀ a ∈ a₁, a.id ≠ ag.id) :
    generate_payouts.go fresh db created (recordId :: rest)
      = generate_payouts.go fresh
          { carriers := db.carriers,
            agents := a₁ ++ ({ ag with totalPayouts := ag.totalPayouts + amt }) :: a₂,
            records := l₁ ++ ({ r₀ with status := "processed" }) :: l₂,
            conflicts := db.conflicts,
            payouts := db.payouts ++ [generatedPayout db r₀ ag amt (fresh created) recordId] }
          (created + 1) rest := by
  have hl₁f : ∀ r ∈ l₁, ((r.id == recordId && r.status == "validated") : Bool) = false := by
    intro r hrr
    simp [beq_eq_false_iff_ne.mpr (hl₁ r hrr)]
  have hr₀t : ((r₀.id == recordId && r₀.status == "validated") : Bool) = true := by
    simp [hid, hstat]
  have hfind : db.records.find? (fun r => r.id == recordId && r.status == "validated")
      = some r₀ := by
    rw [hr]
    exact find?_append_cons l₁ l₂ r₀ _ hl₁f hr₀t
  have ha₁f : ∀ a ∈ a₁, ((a.agentCode == pyStr (payoutAgentCode r₀.mappedData)) : Bool)
      = false := fun a haa => beq_eq_false_iff_ne.mpr (ha₁ a haa)
  have hfindAgent : db.agents.find?
      (fun a => a.agentCode == pyStr (payoutAgentCode r₀.mappedData)) = some ag := by
    rw [hagents]
    exact find?_append_cons a₁ a₂ ag _ ha₁f (beq_iff_eq.mpr hagcode)
  have ha₁idf : ∀ a ∈ a₁, ((a.id == ag.id) : Bool) = false := fun a haa =>
    beq_eq_false_iff_ne.mpr (ha₁id a haa)
  have hbump : updateFirst db.agents (fun x => x.id == ag.id)
      (fun x => { x with totalPayouts := x.totalPayouts + amt })
      = a₁ ++ ({ ag with totalPayouts := ag.totalPayouts + amt }) :: a₂ := by
    rw [hagents]
    exact updateFirst_append_cons a₁ a₂ ag _ _ ha₁idf (by simp)
  have hl₁idf : ∀ r ∈ l₁, ((r.id == recordId) : Bool) = false := fun r hrr =>
    beq_eq_false_iff_ne.mpr (hl₁ r hrr)
  have hproc : updateFirst db.records (fun r => r.id == recordId)
      (fun r => { r with status := "processed" })
      = l₁ ++ ({ r₀ with status := "processed" }) :: l₂ := by
    rw [hr]
    exact updateFirst_append_cons l₁ l₂ r₀ _ _ hl₁idf (beq_iff_eq.mpr hid)
  rw [generate_payouts.go]
  rw [hfind]
  simp only [hcode, if_true, hfindAgent, hamt, Option.map_some']
  rw [hbump, hproc]
  rfl

/-- C5: for a `validated` record with a resolvable agent, generating
payouts twice for its id — within one call (`[id, id]`) or across two
successive calls — creates exactly one payout for that record and
increments the agent's running total exactly once, because the second
pass no longer finds the record in status `validated`. -/
theorem generate_payouts_per_id_idempotent
    (db : DB) (recordId : String) (fresh fresh2 : Nat → String)
    (l₁ l₂ : List RecordDoc) (r₀ : RecordDoc)
    (a₁ a₂ : List AgentDoc) (ag : AgentDoc) (amt : Rat)
    (hr : db.records = l₁ ++ r₀ :: l₂)
    (hl₁ : ∀ r ∈ l₁, r.id ≠ recordId) (hl₂ : ∀ r ∈ l₂, r.id ≠ recordId)
    (hid : r₀.id = recordId) (hstat : r₀.status = "validated")
    (hamt : pyFloat? (payoutAmountVal r₀.mappedData) = some amt)
    (hcode : pyTruthy (payoutAgentCode r₀.mappedData) = true)
    (hagents : db.agents = a₁ ++ ag :: a₂)
    (ha₁ : ∀ a ∈ a₁, a.agentCode ≠ pyStr (payoutAgentCode r₀.mappedData))
    (hagcode : ag.agentCode = pyStr (payoutAgentCode r₀.mappedData))
    (ha₁id : ∀ a ∈ a₁, a.id ≠ ag.id) :
    ∃ db₁,
      generate_payouts db [recordId, recordId] fresh = (db₁, 1, false) ∧
      generate_payouts db [recordId] fresh = (db₁, 1, false) ∧
      generate_payouts db₁ [recordId] fresh2 = (db₁, 0, false) ∧
      payoutCountFor db₁ recordId = payoutCountFor db recordId + 1 ∧
      db₁.agents = a₁ ++ ({ ag with totalPayouts := ag.totalPayouts + amt }) :: a₂ ∧
      recordStatus db₁ recordId = some "processed" := by
  have hstep :=
    generate_go_process fresh db 0 recordId [recordId] l₁ l₂ r₀ a₁ a₂ ag amt
      hr hl₁ hid hstat hamt hcode hagents ha₁ hagcode ha₁id
  have hstep' :=
    generate_go_process fresh db 0 recordId [] l₁ l₂ r₀ a₁ a₂ ag amt
      hr hl₁ hid hstat hamt hcode hagents ha₁ hagcode ha₁id
  set p : PayoutDoc := generatedPayout db r₀ ag amt (fresh 0) recordId with hp
  set db₁ : DB :=
    { carriers := db.carriers,
      agents := a₁ ++ ({ ag with totalPayouts := ag.totalPayouts + amt }) :: a₂,
      records := l₁ ++ ({ r₀ with status := "processed" }) :: l₂,
      conflicts := db.conflicts,
      payouts := db.payouts ++ [p] } with hdb₁
  have hnotval : ∀ r ∈ db₁.records, r.id = recordId → r.status ≠ "validated" := by
    intro r hrmem hrid
    rcases List.mem_append.mp hrmem with hA | hB
    · exact absurd hrid (hl₁ r hA)
    · rcases List.mem_cons.mp hB with hEq | hC
      · subst hEq
        intro hcontra
        simp at hcontra
      · exact absurd hrid (hl₂ r hC)
  have hskip : generate_payouts.go fresh db₁ 1 [recordId]
      = generate_payouts.go fresh db₁ 1 [] :=
    generate_go_skip fresh db₁ 1 recordId [] hnotval
  have hskip2 : generate_payouts.go fresh2 db₁ 0 [recordId]
      = generate_payouts.go fresh2 db₁ 0 [] :=
    generate_go_skip fresh2 db₁ 0 recordId [] hnotval
  refine ⟨db₁, ?_, ?_, ?_, ?_, rfl, ?_⟩
  · show generate_payouts.go fresh db 0 [recordId, recordId] = (db₁, 1, false)
    rw [hstep]
    exact hskip.trans rfl
  · show generate_payouts.go fresh db 0 [recordId] = (db₁, 1, false)
    rw [hstep']
    exact generate_go_nil fresh db₁ 1
  · show generate_payouts.go fresh2 db₁ 0 [recordId] = (db₁, 0, false)
    rw [hskip2]
    exact generate_go_nil fresh2 db₁ 0
  · unfold payoutCountFor
    rw [hdb₁]
    simp only [List.filter_append, List.length_append]
    have : (List.filter (fun q => q.recordId == recordId) [p]).length = 1 := by
      simp [hp, generatedPayout]
    rw [this]
  · unfold recordStatus
    rw [hdb₁]
    simp only
    have hf : ∀ r ∈ l₁, ((r.id == recordId) : Bool) = false := fun r hrr =>
      beq_eq_false_iff_ne.mpr (hl₁ r hrr)
    rw [find?_append_cons l₁ l₂ _ _ hf (by simpa using beq_iff_eq.mpr hid)]
    rfl

/-- Closed witness for C5: one validated record with amount 100 and a
matching agent at 10% commission; two generation passes leave exactly
one payout and one 100-unit increment. -/
theorem generate_payouts_per_id_idempotent_witness :
    ({ id := "r1", uploadId := "u1", carrierId := "c1", rawData := [],
       mappedData := [("amount", PyVal.int 100), ("agent_code", PyVal.str "A1")],
       status := "validated", conflicts := [] } : RecordDoc).status = "validated" ∧
    ∃ db₁,
      generate_payouts
          { carriers := [], agents := [{ id := "a1", agentCode := "A1", name := "Agent One",
                                         commissionRate := 10, totalPayouts := 0 }],
            records := [{ id := "r1", uploadId := "u1", carrierId := "c1", rawData := [],
                          mappedData := [("amount", PyVal.int 100), ("agent_code", PyVal.str "A1")],
                          status := "validated", conflicts := [] }],
            conflicts := [], payouts := [] }
          ["r1", "r1"] (fun n => toString n) = (db₁, 1, false) ∧
      generate_payouts
          { carriers := [], agents := [{ id := "a1", agentCode := "A1", name := "Agent One",
                                         commissionRate := 10, totalPayouts := 0 }],
            records := [{ id := "r1", uploadId := "u1", carrierId := "c1", rawData := [],
                          mappedData := [("amount", PyVal.int 100), ("agent_code", PyVal.str "A1")],
                          status := "validated", conflicts := [] }],
            conflicts := [], payouts := [] }
          ["r1"] (fun n => toString n) = (db₁, 1, false) ∧
      generate_payouts db₁ ["r1"] (fun n => toString n) = (db₁, 0, false) ∧
      payoutCountFor db₁ "r1"
        = payoutCountFor
            { carriers := [], agents := [{ id := "a1", agentCode := "A1", name := "Agent One",
                                           commissionRate := 10, totalPayouts := 0 }],
              records := [{ id := "r1", uploadId := "u1", carrierId := "c1", rawData := [],
                            mappedData := [("amount", PyVal.int 100), ("agent_code", PyVal.str "A1")],
                            status := "validated", conflicts := [] }],
              conflicts := [], payouts := [] } "r1" + 1 ∧
      db₁.agents = [{ id := "a1", agentCode := "A1", name := "Agent One",
                      commissionRate := 10, totalPayouts := 0 + 100 }] ∧
      recordStatus db₁ "r1" = some "processed" :=
  ⟨rfl,
    generate_payouts_per_id_idempotent
      { carriers := [],
        agents := [{ id := "a1", agentCode := "A1", name := "Agent One",
                     commissionRate := 10, totalPayouts := 0 }],
        records := [{ id := "r1", uploadId := "u1", carrierId := "c1", rawData := [],
                      mappedData := [("amount", PyVal.int 100), ("agent_code", PyVal.str "A1")],
                      status := "validated", conflicts := [] }],
        conflicts := [], payouts := [] }
      "r1" (fun n => toString n) (fun n => toString n)
      [] []
      { id := "r1", uploadId := "u1", carrierId := "c1", rawData := [],
        mappedData := [("amount", PyVal.int 100), ("agent_code", PyVal.str "A1")],
        status := "validated", conflicts := [] }
      [] []
      { id := "a1", agentCode := "A1", name := "Agent One",
        commissionRate := 10, totalPayouts := 0 }
      100
      rfl (by simp) (by simp) rfl rfl (by decide) (by decide) rfl (by simp) rfl (by simp)⟩

/-! ## Claim C1 — conflict detection when no primary key is present -/

/-- The detector's conflict list is empty exactly when its query finds
no existing record (a found match always yields at least the duplicate
signal). -/
theorem detect_conflicts_eq_nil_iff_no_match (db : DB) (mapped : Row)
    (carrierId : String) (pks : List String) :
    detect_conflicts db mapped carrierId pks = [] ↔
      findMatch db mapped carrierId pks = Option.none := by
  unfold detect_conflicts
  cases hf : findMatch db mapped carrierId pks with
  | none => simp
  | some e =>
    simp only
    constructor
    · intro hnil
      by_cases hms : (mapped.filterMap (mismatchOf e)).isEmpty
      · rw [if_pos hms] at hnil
        cases hnil
      · rw [if_neg hms] at hnil
        rw [hnil] at hms
        exact absurd rfl hms
    · intro hcontra
      cases hcontra

/-- A store with one pending record for carrier `c1`, used to refute
C1 as stated. -/
def noPkStore : DB :=
  { carriers := [], agents := [],
    records := [{ id := "r0", uploadId := "u0", carrierId := "c1",
                  rawData := [("Premium", PyVal.int 100)],
                  mappedData := [("amount", PyVal.int 100)],
                  status := "pending", conflicts := [] }],
    conflicts := [], payouts := [] }

/-- A carrier for `c1` with an empty primary-key list. -/
def noPkCarrier : CarrierDoc :=
  { id := "c1", name := "Carrier One", primaryKeyFields := [],
    fieldMappings := [("Premium", "amount")] }

/-- Counterexample to C1 as stated: with `primary_key_fields = []` the
query carries no `$or` clause, so it matches the carrier's existing
pending record and the detector emits a mismatch — the new record is
created in status `conflict`, not clean. -/
theorem detect_conflicts_no_pk_counterexample :
    detect_conflicts noPkStore
        (apply_field_mappings [("Premium", PyVal.int 150)] noPkCarrier.fieldMappings)
        "c1" []
      = [⟨"mismatch", "amount", PyVal.int 100, PyVal.int 150, "r0", Option.none⟩] ∧
    detect_conflicts noPkStore
        (apply_field_mappings [("Premium", PyVal.int 150)] noPkCarrier.fieldMappings)
        "c1" [] ≠ [] ∧
    (ingestRecord noPkStore noPkCarrier "u1" "r1" (fun n => "k" ++ toString n)
        [("Premium", PyVal.int 150)]).2.status = "conflict" := by
  refine ⟨by decide, ?_, by decide⟩
  intro h
  rw [show detect_conflicts noPkStore
      (apply_field_mappings [("Premium", PyVal.int 150)] noPkCarrier.fieldMappings)
      "c1" []
      = [⟨"mismatch", "amount", PyVal.int 100, PyVal.int 150, "r0", Option.none⟩]
    from by decide] at h
  cases h

/-- C1 (amended): when the new row's `mapped_data` contains none of the
carrier's primary-key fields, the detector's query degenerates to the
carrier + status filter alone, so the conflict list is empty — and the
record is created clean with status `pending` — exactly when the store
holds no validated-or-pending record of that carrier at all. -/
theorem ingest_no_pk_degenerate_query
    (db : DB) (carrier : CarrierDoc) (uploadId recordId : String)
    (conflictIds : Nat → String) (raw : Row)
    (hpk : ∀ pk ∈ carrier.primaryKeyFields,
      alookup (apply_field_mappings raw carrier.fieldMappings) pk = Option.none) :
    (detect_conflicts db (apply_field_mappings raw carrier.fieldMappings)
        carrier.id carrier.primaryKeyFields = []
      ↔ ∀ r ∈ db.records, r.carrierId = carrier.id →
          r.status ≠ "validated" ∧ r.status ≠ "pending") ∧
    ((∀ r ∈ db.records, r.carrierId = carrier.id →
        r.status ≠ "validated" ∧ r.status ≠ "pending") →
      (ingestRecord db carrier uploadId recordId conflictIds raw).2.status = "pending" ∧
      (ingestRecord db carrier uploadId recordId conflictIds raw).1.conflicts = db.conflicts) := by
  have hpkc : pkConditions (apply_field_mappings raw carrier.fieldMappings)
      carrier.primaryKeyFields = [] := by
    unfold pkConditions
    rw [List.filterMap_eq_nil_iff]
    intro pk hmem
    rw [hpk pk hmem]
    rfl
  have hq : ∀ r : RecordDoc,
      matchesQuery r carrier.id (pkConditions
        (apply_field_mappings raw carrier.fieldMappings) carrier.primaryKeyFields) = true
      ↔ (r.carrierId = carrier.id ∧ (r.status = "validated" ∨ r.status = "pending")) := by
    intro r
    rw [hpkc]
    unfold matchesQuery
    simp [Bool.and_eq_true, Bool.or_eq_true, beq_iff_eq]
  have hiff : detect_conflicts db (apply_field_mappings raw carrier.fieldMappings)
      carrier.id carrier.primaryKeyFields = []
      ↔ ∀ r ∈ db.records, r.carrierId = carrier.id →
          r.status ≠ "validated" ∧ r.status ≠ "pending" := by
    rw [detect_conflicts_eq_nil_iff_no_match]
    unfold findMatch
    rw [List.find?_eq_none]
    constructor
    · intro h r hr hcid
      have hnq := h r hr
      constructor
      · intro hv
        exact hnq ((hq r).mpr ⟨hcid, Or.inl hv⟩)
      · intro hp
        exact hnq ((hq r).mpr ⟨hcid, Or.inr hp⟩)
    · intro h r hr hmq
      obtain ⟨hcid, hst⟩ := (hq r).mp hmq
      rcases hst with hv | hp
      · exact (h r hr hcid).1 hv
      · exact (h r hr hcid).2 hp
  refine ⟨hiff, fun hnone => ?_⟩
  have hnil := hiff.mpr hnone
  constructor
  · show (if (detect_conflicts db (apply_field_mappings raw carrier.fieldMappings)
        carrier.id carrier.primaryKeyFields).isEmpty then "pending" else "conflict") = "pending"
    rw [hnil]
    rfl
  · show db.conflicts ++ ((detect_conflicts db (apply_field_mappings raw carrier.fieldMappings)
        carrier.id carrier.primaryKeyFields).enum.map fun ic =>
          conflictDocOf recordId uploadId (conflictIds ic.1) ic.2) = db.conflicts
    rw [hnil]
    simp

/-- Closed witness for the amended C1: a carrier whose primary key is
absent from the mapped row, over a store whose only record for the
carrier is `rejected` — the detector finds nothing and the record is
created clean. -/
theorem ingest_no_pk_degenerate_query_witness :
    (∀ pk ∈ ["policy_number"],
      alookup (apply_field_mappings [("Premium", PyVal.int 150)] [("Premium", "amount")]) pk
        = Option.none) ∧
    ((detect_conflicts
        { carriers := [], agents := [],
          records := [{ id := "r0", uploadId := "u0", carrierId := "c1",
                        rawData := [], mappedData := [("amount", PyVal.int 100)],
                        status := "rejected", conflicts := [] }],
          conflicts := [], payouts := [] }
        (apply_field_mappings [("Premium", PyVal.int 150)] [("Premium", "amount")])
        "c1" ["policy_number"] = []
      ↔ ∀ r ∈ ({ carriers := [], agents := [],
                 records := [{ id := "r0", uploadId := "u0", carrierId := "c1",
                               rawData := [], mappedData := [("amount", PyVal.int 100)],
                               status := "rejected", conflicts := [] }],
                 conflicts := [], payouts := [] } : DB).records, r.carrierId = "c1" →
          r.status ≠ "validated" ∧ r.status ≠ "pending") ∧
    ((∀ r ∈ ({ carriers := [], agents := [],
               records := [{ id := "r0", uploadId := "u0", carrierId := "c1",
                             rawData := [], mappedData := [("amount", PyVal.int 100)],
                             status := "rejected", conflicts := [] }],
               conflicts := [], payouts := [] } : DB).records, r.carrierId = "c1" →
        r.status ≠ "validated" ∧ r.status ≠ "pending") →
      (ingestRecord
          { carriers := [], agents := [],
            records := [{ id := "r0", uploadId := "u0", carrierId := "c1",
                          rawData := [], mappedData := [("amount", PyVal.int 100)],
                          status := "rejected", conflicts := [] }],
            conflicts := [], payouts := [] }
          { id := "c1", name := "Carrier One", primaryKeyFields := ["policy_number"],
            fieldMappings := [("Premium", "amount")] }
          "u1" "r1" (fun n => "k" ++ toString n) [("Premium", PyVal.int 150)]).2.status
        = "pending" ∧
      (ingestRecord
          { carriers := [], agents := [],
            records := [{ id := "r0", uploadId := "u0", carrierId := "c1",
                          rawData := [], mappedData := [("amount", PyVal.int 100)],
                          status := "rejected", conflicts := [] }],
            conflicts := [], payouts := [] }
          { id := "c1", name := "Carrier One", primaryKeyFields := ["policy_number"],
            fieldMappings := [("Premium", "amount")] }
          "u1" "r1" (fun n => "k" ++ toString n) [("Premium", PyVal.int 150)]).1.conflicts
        = ({ carriers := [], agents := [],
             records := [{ id := "r0", uploadId := "u0", carrierId := "c1",
                           rawData := [], mappedData := [("amount", PyVal.int 100)],
                           status := "rejected", conflicts := [] }],
             conflicts := [], payouts := [] } : DB).conflicts)) :=
  ⟨by decide,
    ingest_no_pk_degenerate_query
      { carriers := [], agents := [],
        records := [{ id := "r0", uploadId := "u0", carrierId := "c1",
                      rawData := [], mappedData := [("amount", PyVal.int 100)],
                      status := "rejected", conflicts := [] }],
        conflicts := [], payouts := [] }
      { id := "c1", name := "Carrier One", primaryKeyFields := ["policy_number"],
        fieldMappings := [("Premium", "amount")] }
      "u1" "r1" (fun n => "k" ++ toString n) [("Premium", PyVal.int 150)]
      (by decide)⟩

/-! ## Claim C2 — field mismatches and the duplicate signal on a match -/

theorem mismatchOf_eq_some_iff (e : RecordDoc) (f : String) (v : PyVal) (c : RawConflict) :
    mismatchOf e (f, v) = some c ↔
      (startsWithChar '_' f = false ∧ v ≠ PyVal.null ∧
        agetD e.mappedData f PyVal.null ≠ PyVal.null ∧
        pyStr (agetD e.mappedData f PyVal.null) ≠ pyStr v ∧
        c = ⟨"mismatch", f, agetD e.mappedData f PyVal.null, v, e.id, Option.none⟩) := by
  unfold mismatchOf
  by_cases h1 : startsWithChar '_' f
  · simp [h1]
  · rw [Bool.not_eq_true] at h1
    simp only [h1, Bool.false_eq_true, if_false]
    by_cases h2 : (!isNull (agetD e.mappedData f PyVal.null) && !isNull v
        && pyStr (agetD e.mappedData f PyVal.null) != pyStr v) = true
    · rw [if_pos h2]
      rw [Bool.and_eq_true, Bool.and_eq_true] at h2
      obtain ⟨⟨hev, hv⟩, hne⟩ := h2
      rw [Bool.not_eq_true'] at hev hv
      constructor
      · intro hsome
        refine ⟨by trivial, (isNull_eq_false_iff v).mp hv,
          (isNull_eq_false_iff _).mp hev, bne_iff_ne.mp hne, ?_⟩
        exact ((Option.some.injEq _ _).mp hsome).symm
      · intro ⟨_, _, _, _, hc⟩
        rw [hc]
    · rw [if_neg h2]
      constructor
      · intro hcontra
        cases hcontra
      · intro ⟨_, hv, hev, hne, _⟩
        exact absurd (by
          rw [Bool.and_eq_true, Bool.and_eq_true]
          exact ⟨⟨(Bool.not_eq_true' _).mpr ((isNull_eq_false_iff _).mpr hev),
            (Bool.not_eq_true' _).mpr ((isNull_eq_false_iff v).mpr hv)⟩,
            bne_iff_ne.mpr hne⟩) h2

/-- C2 (amended): given a primary-key match `e`, a mismatch conflict
for field `f` is emitted exactly when `f` is non-reserved and non-null
in both records with differing stringified values; when a match exists
but no mismatch was found, exactly one duplicate conflict is emitted —
carrying the sentinel field name `"record"`, not an empty field name. -/
theorem detect_conflicts_match_characterization
    (db : DB) (mapped : Row) (carrierId : String) (pks : List String) (e : RecordDoc)
    (hmatch : findMatch db mapped carrierId pks = some e)
    (hnd : (mapped.map Prod.fst).Nodup) :
    (∀ f : String,
      (∃ c ∈ detect_conflicts db mapped carrierId pks, c.ctype = "mismatch" ∧ c.field = f)
      ↔ (startsWithChar '_' f = false ∧
          ∃ v w, alookup mapped f = some v ∧ v ≠ PyVal.null ∧
            alookup e.mappedData f = some w ∧ w ≠ PyVal.null ∧ pyStr w ≠ pyStr v)) ∧
    ((∀ c ∈ detect_conflicts db mapped carrierId pks, c.ctype ≠ "mismatch") →
      detect_conflicts db mapped carrierId pks = [duplicateOf e]) ∧
    (duplicateOf e).field = "record" := by
  have hdc : detect_conflicts db mapped carrierId pks =
      (if (mapped.filterMap (mismatchOf e)).isEmpty then [duplicateOf e]
       else mapped.filterMap (mismatchOf e)) := by
    unfold detect_conflicts
    rw [hmatch]
  have hmsMem : ∀ c : RawConflict, c ∈ mapped.filterMap (mismatchOf e) ↔
      ∃ fv : String × PyVal, fv ∈ mapped ∧ mismatchOf e fv = some c := fun c =>
    List.mem_filterMap
  have hRHSofMem : ∀ c : RawConflict, c ∈ mapped.filterMap (mismatchOf e) →
      c.ctype = "mismatch" ∧
      (startsWithChar '_' c.field = false ∧
        ∃ v w, alookup mapped c.field = some v ∧ v ≠ PyVal.null ∧
          alookup e.mappedData c.field = some w ∧ w ≠ PyVal.null ∧ pyStr w ≠ pyStr v) := by
    intro c hc
    obtain ⟨⟨f', v'⟩, hfv, hsome⟩ := (hmsMem c).mp hc
    obtain ⟨hus, hv', hev, hstr, hceq⟩ := (mismatchOf_eq_some_iff e f' v' c).mp hsome
    have hfield : c.field = f' := by rw [hceq]
    have hctype : c.ctype = "mismatch" := by rw [hceq]
    subst hfield
    refine ⟨hctype, hus, v', agetD e.mappedData c.field PyVal.null,
      alookup_eq_some_of_mem mapped c.field v' hnd hfv, hv', ?_, hev, hstr⟩
    unfold agetD at hev ⊢
    cases halo : alookup e.mappedData c.field with
    | none =>
      rw [halo] at hev
      exact absurd rfl hev
    | some w => rfl
  have hMemOfRHS : ∀ f : String,
      (startsWithChar '_' f = false ∧
        ∃ v w, alookup mapped f = some v ∧ v ≠ PyVal.null ∧
          alookup e.mappedData f = some w ∧ w ≠ PyVal.null ∧ pyStr w ≠ pyStr v) →
      (⟨"mismatch", f, agetD e.mappedData f PyVal.null, (alookup mapped f).getD PyVal.null,
        e.id, Option.none⟩ : RawConflict) ∈ mapped.filterMap (mismatchOf e) := by
    intro f ⟨hus, v, w, hlv, hv, hlw, hw, hstr⟩
    refine (hmsMem _).mpr ⟨(f, v), mem_of_alookup_eq_some mapped f v hlv, ?_⟩
    have hag : agetD e.mappedData f PyVal.null = w := by
      unfold agetD
      rw [hlw]
      rfl
    rw [mismatchOf_eq_some_iff]
    refine ⟨hus, hv, ?_, ?_, ?_⟩
    · rw [hag]; exact hw
    · rw [hag]; exact hstr
    · rw [hlv]
      rfl
  refine ⟨?_, ?_, rfl⟩
  · intro f
    constructor
    · intro ⟨c, hc, hct, hcf⟩
      rw [hdc] at hc
      by_cases hempty : (mapped.filterMap (mismatchOf e)).isEmpty
      · rw [if_pos hempty] at hc
        rcases List.mem_cons.mp hc with hEq | hnil
        · subst hEq
          have : (duplicateOf e).ctype = "duplicate" := rfl
          rw [this] at hct
          exact absurd hct (by decide)
        · cases hnil
      · rw [if_neg hempty] at hc
        have := hRHSofMem c hc
        rw [hcf] at this
        exact this.2
    · intro hRHS
      have hmem := hMemOfRHS f hRHS
      have hnonempty : ¬ (mapped.filterMap (mismatchOf e)).isEmpty = true := by
        intro hcontra
        rw [List.isEmpty_iff] at hcontra
        rw [hcontra] at hmem
        cases hmem
      refine ⟨⟨"mismatch", f, agetD e.mappedData f PyVal.null,
        (alookup mapped f).getD PyVal.null, e.id, Option.none⟩, ?_, rfl, rfl⟩
      rw [hdc, if_neg hnonempty]
      exact hmem
  · intro hall
    rw [hdc]
    by_cases hempty : (mapped.filterMap (mismatchOf e)).isEmpty
    · rw [if_pos hempty]
    · rw [if_neg hempty]
      exfalso
      have hne : List.filterMap (mismatchOf e) mapped ≠ [] := by
        intro hnil
        exact hempty (by rw [hnil]; rfl)
      obtain ⟨c, hc⟩ := List.exists_mem_of_ne_nil _ hne
      have hct := (hRHSofMem c hc).1
      have hcd : c ∈ detect_conflicts db mapped carrierId pks := by
        rw [hdc, if_neg ?_]
        · exact hc
        · intro hcontra
          rw [List.isEmpty_iff] at hcontra
          rw [hcontra] at hc
          cases hc
      exact hall c hcd hct

/-- The pre-existing record used in the C2 examples. -/
def dupExisting : RecordDoc :=
  { id := "r0", uploadId := "u0", carrierId := "c1", rawData := [],
    mappedData := [("policy_number", PyVal.str "P1"), ("amount", PyVal.int 100)],
    status := "pending", conflicts := [] }

/-- The store used to refute C2's "no field name" for duplicates. -/
def dupStore : DB :=
  { carriers := [], agents := [], records := [dupExisting],
    conflicts := [], payouts := [] }

/-- Counterexample to C2 as stated: on a primary-key match with no
field-level mismatch, the single emitted duplicate conflict carries the
sentinel field name `"record"` (persisted as `field_name = "record"`),
not an empty field name. -/
theorem duplicate_conflict_field_name_counterexample :
    detect_conflicts dupStore
        [("policy_number", PyVal.str "P1"), ("amount", PyVal.int 100), ("_raw", PyVal.dict [])]
        "c1" ["policy_number"]
      = [⟨"duplicate", "record", PyVal.null, PyVal.null, "r0",
          some "Potential duplicate record found"⟩] ∧
    (conflictDocOf "r1" "u1" "k0"
        ⟨"duplicate", "record", PyVal.null, PyVal.null, "r0",
          some "Potential duplicate record found"⟩).fieldName = "record" ∧
    ("record" : String) ≠ "" := by
  exact ⟨by decide, by decide, by decide⟩

/-- Closed witness for the amended C2, at a match with one mismatching
field (`amount`, 100 vs 150). -/
theorem detect_conflicts_match_characterization_witness :
    findMatch dupStore
        [("policy_number", PyVal.str "P1"), ("amount", PyVal.int 150), ("_raw", PyVal.dict [])]
        "c1" ["policy_number"]
      = some dupExisting ∧
    ((∀ f : String,
      (∃ c ∈ detect_conflicts dupStore
          [("policy_number", PyVal.str "P1"), ("amount", PyVal.int 150), ("_raw", PyVal.dict [])]
          "c1" ["policy_number"], c.ctype = "mismatch" ∧ c.field = f)
      ↔ (startsWithChar '_' f = false ∧
          ∃ v w, alookup [("policy_number", PyVal.str "P1"), ("amount", PyVal.int 150),
              ("_raw", PyVal.dict [])] f = some v ∧ v ≠ PyVal.null ∧
            alookup dupExisting.mappedData f = some w ∧
            w ≠ PyVal.null ∧ pyStr w ≠ pyStr v)) ∧
    ((∀ c ∈ detect_conflicts dupStore
        [("policy_number", PyVal.str "P1"), ("amount", PyVal.int 150), ("_raw", PyVal.dict [])]
        "c1" ["policy_number"], c.ctype ≠ "mismatch") →
      detect_conflicts dupStore
        [("policy_number", PyVal.str "P1"), ("amount", PyVal.int 150), ("_raw", PyVal.dict [])]
        "c1" ["policy_number"]
        = [duplicateOf dupExisting]) ∧
    (duplicateOf dupExisting).field = "record") :=
  ⟨by decide,
    detect_conflicts_match_characterization dupStore
      [("policy_number", PyVal.str "P1"), ("amount", PyVal.int 150), ("_raw", PyVal.dict [])]
      "c1" ["policy_number"] dupExisting
      (by decide) (by decide)⟩

/-! ## Claim C3 — header detection bounds and the data-start default -/

/-- Header-row qualification count exactly as C3's sentence reads:
non-empty cells among the first `min(50, last column)` columns.
Stated only for comparison with the code's `countNonEmptyCells`. -/
def countNonEmptyCellsClaim (s : Sheet) (r : Nat) : Nat :=
  ((List.range' 1 (min 50 s.maxCol)).map (fun c => s.cell r c)).countP cellNonEmpty

/-- Header detection exactly as C3's sentence reads: scan rows
`1 .. min(20, last row)`, first row with at least 5 non-empty cells,
defaulting to 1.  Stated only for comparison with the code's
`detectHeaderRow`. -/
def detectHeaderRowClaim (s : Sheet) : Nat :=
  match (List.range' 1 (min 20 s.maxRow)).find?
      (fun r => decide (5 ≤ countNonEmptyCellsClaim s r)) with
  | some r => r
  | Option.none => 1

/-- A 20-row sheet whose only header-like row is row 20. -/
def offByOneRowSheet : Sheet :=
  ⟨List.replicate 19 [PyVal.str "x"] ++
    [[PyVal.str "a", PyVal.str "b", PyVal.str "c", PyVal.str "d", PyVal.str "e"]]⟩

/-- A 50-column sheet whose first row is header-like only when column
50 is counted. -/
def offByOneColSheet : Sheet :=
  ⟨[List.replicate 45 PyVal.null ++
      [PyVal.str "a", PyVal.str "b", PyVal.str "c", PyVal.str "d", PyVal.str "e"],
    [PyVal.str "p", PyVal.str "q", PyVal.str "r", PyVal.str "s", PyVal.str "t"]]⟩

/-- Counterexample to C3 as stated: the code's `range(1, min(20,
max_row + 1))` and `range(1, min(50, max_column + 1))` scans stop at
row 19 and column 49, not at row 20 and column 50 as the claim says.
Row 20 of the first sheet qualifies under the claim's bounds (so the
claim predicts header 20) yet the code defaults to 1; row 1 of the
second sheet qualifies only with column 50 counted (claim predicts 1)
yet the code selects row 2. -/
theorem header_detection_bounds_counterexample :
    detectHeaderRow offByOneRowSheet = 1 ∧
    detectHeaderRowClaim offByOneRowSheet = 20 ∧
    5 ≤ countNonEmptyCellsClaim offByOneRowSheet 20 ∧
    detectHeaderRow offByOneColSheet = 2 ∧
    detectHeaderRowClaim offByOneColSheet = 1 ∧
    countNonEmptyCells offByOneColSheet 1 = 4 := by
  exact ⟨by decide, by decide, by decide, by decide, by decide, by decide⟩

/-- `find?` on `range' a n` returns the first qualifying index. -/
theorem find?_range'_first (a n : Nat) (p : Nat → Bool) :
    ((List.range' a n).find? p = Option.none → ∀ j, a ≤ j → j < a + n → p j = false) ∧
    (∀ r, (List.range' a n).find? p = some r →
      a ≤ r ∧ r < a + n ∧ p r = true ∧ ∀ j, a ≤ j → j < r → p j = false) := by
  induction n generalizing a with
  | zero =>
    constructor
    · intro _ j hj1 hj2
      omega
    · intro r hr
      simp [List.range'] at hr
  | succ n ih =>
    rw [List.range'_succ]
    by_cases hpa : p a = true
    · rw [List.find?_cons_of_pos _ hpa]
      constructor
      · intro hcontra
        cases hcontra
      · intro r hr
        have : a = r := by
          injection hr
        subst this
        exact ⟨Nat.le_refl a, by omega, hpa, fun j hj1 hj2 => by omega⟩
    · have hpa' : p a = false := by
        rw [Bool.not_eq_true] at hpa
        exact hpa
      rw [List.find?_cons_of_neg _ hpa]
      constructor
      · intro hnone j hj1 hj2
        by_cases hja : j = a
        · subst hja
          exact hpa'
        · exact (ih (a + 1)).1 hnone j (by omega) (by omega)
      · intro r hr
        obtain ⟨h1, h2, h3, h4⟩ := (ih (a + 1)).2 r hr
        refine ⟨by omega, by omega, h3, fun j hj1 hj2 => ?_⟩
        by_cases hja : j = a
        · subst hja
          exact hpa'
        · exact h4 j (by omega) hj2

/-- C3 (amended): with no explicit header row, the code scans rows
1 through min(19, last row) — `range(1, min(20, max_row + 1))` stops
one short of the claim's min(20, last row) — counting non-empty cells
among the first min(49, last column) columns (again one short of the
claim's min(50, ...)); the first row with at least 5 such cells is the
header, defaulting to row 1, and the data-start default is header
row + 1. -/
theorem header_and_start_row_detection (s : Sheet) :
    (∀ r, countNonEmptyCells s r =
      ((List.range' 1 (min 49 s.maxCol)).map (fun c => s.cell r c)).countP cellNonEmpty) ∧
    ((∃ r, 1 ≤ r ∧ r ≤ min 19 s.maxRow ∧ 5 ≤ countNonEmptyCells s r ∧
        detectHeaderRow s = r ∧ ∀ j, 1 ≤ j → j < r → countNonEmptyCells s j < 5)
      ∨ ((∀ j, 1 ≤ j → j ≤ min 19 s.maxRow → countNonEmptyCells s j < 5) ∧
          detectHeaderRow s = 1)) ∧
    startRowOf s Option.none Option.none = detectHeaderRow s + 1 := by
  have hcols : min 50 (s.maxCol + 1) - 1 = min 49 s.maxCol := by omega
  have hrows : min 20 (s.maxRow + 1) - 1 = min 19 s.maxRow := by omega
  refine ⟨?_, ?_, rfl⟩
  · intro r
    unfold countNonEmptyCells
    rw [hcols]
  · unfold detectHeaderRow
    rw [hrows]
    cases hf : (List.range' 1 (min 19 s.maxRow)).find?
        (fun r => decide (5 ≤ countNonEmptyCells s r)) with
    | none =>
      refine Or.inr ⟨?_, rfl⟩
      intro j hj1 hj2
      have := (find?_range'_first 1 (min 19 s.maxRow) _).1 hf j hj1 (by omega)
      have hnot : ¬ 5 ≤ countNonEmptyCells s j := by
        intro hle
        rw [decide_eq_true hle] at this
        cases this
      omega
    | some r =>
      obtain ⟨h1, h2, h3, h4⟩ := (find?_range'_first 1 (min 19 s.maxRow) _).2 r hf
      refine Or.inl ⟨r, h1, by omega, of_decide_eq_true h3, rfl, ?_⟩
      intro j hj1 hj2
      have := h4 j hj1 hj2
      have hnot : ¬ 5 ≤ countNonEmptyCells s j := by
        intro hle
        rw [decide_eq_true hle] at this
        cases this
      omega

/-! ## Claim C7 — which data rows are kept -/

theorem aset_all_null (m : Row) (k : String) (v : PyVal)
    (hm : ∀ q ∈ m, isNull q.2 = true) (hv : isNull v = true) :
    ∀ q ∈ aset m k v, isNull q.2 = true := by
  induction m with
  | nil =>
    intro q hq
    rcases List.mem_cons.mp hq with hEq | hnil
    · subst hEq
      exact hv
    · cases hnil
  | cons p rest ih =>
    intro q hq
    unfold aset at hq
    by_cases hk : p.1 = k
    · rw [if_pos hk] at hq
      rcases List.mem_cons.mp hq with hEq | hmem
      · subst hEq
        exact hv
      · exact hm q (List.mem_cons.mpr (Or.inr hmem))
    · rw [if_neg hk] at hq
      rcases List.mem_cons.mp hq with hEq | hmem
      · subst hEq
        exact hm p (List.mem_cons.mpr (Or.inl rfl))
      · exact ih (fun q' hq' => hm q' (List.mem_cons.mpr (Or.inr hq'))) q hmem

theorem buildRowData_go_all_null (headers : List String) (vals : List PyVal)
    (i : Nat) (acc : Row)
    (hvals : ∀ v ∈ vals, isNull v = true)
    (hacc : ∀ q ∈ acc, isNull q.2 = true) :
    ∀ q ∈ buildRowData.go headers i acc vals, isNull q.2 = true := by
  induction vals generalizing i acc with
  | nil => exact hacc
  | cons v vs ih =>
    unfold buildRowData.go
    by_cases hi : i < headers.length
    · rw [if_pos hi]
      exact ih (i + 1) _ (fun w hw => hvals w (by simp [hw]))
        (aset_all_null acc (headers.getD i "") v hacc (hvals v (by simp)))
    · rw [if_neg hi]
      exact ih (i + 1) acc (fun w hw => hvals w (by simp [hw])) hacc

/-- An all-empty row builds a `row_data` with zero non-null values. -/
theorem countNonNull_buildRowData_all_null (headers : List String) (vals : List PyVal)
    (hvals : vals.all isNull = true) :
    countNonNull (buildRowData headers vals) = 0 := by
  have hall : ∀ q ∈ buildRowData headers vals, isNull q.2 = true :=
    buildRowData_go_all_null headers vals 0 []
      (fun v hv => List.all_eq_true.mp hvals v hv) (by intro q hq; cases hq)
  unfold countNonNull
  rw [show (buildRowData headers vals).filter (fun p => !isNull p.2) = [] from ?_]
  · rfl
  rw [List.filter_eq_nil_iff]
  intro q hq
  rw [hall q hq]
  decide

theorem filterMap_congr_on {α β : Type} (l : List α) (f g : α → Option β)
    (h : ∀ x ∈ l, f x = g x) : l.filterMap f = l.filterMap g := by
  induction l with
  | nil => rfl
  | cons x xs ih =>
    rw [List.filterMap_cons, List.filterMap_cons, h x (by simp)]
    rw [ih fun y hy => h y (by simp [hy])]

/-- C7: from the data-start row to the sheet's last row, a row is kept
if and only if its built `row_data` has at least 3 non-null values (the
all-empty-row skip is subsumed: such rows count 0), and kept rows
appear in sheet order — `extract_excel_data` equals the plain
threshold filter over the ascending row range. -/
theorem extract_rows_kept_iff_threshold (s : Sheet) (headerRowCfg startRowCfg : Option Nat) :
    (extract_excel_data s headerRowCfg startRowCfg
      = (List.range' (startRowOf s headerRowCfg startRowCfg)
          (s.maxRow + 1 - startRowOf s headerRowCfg startRowCfg)).filterMap (fun r =>
            if 3 ≤ countNonNull (buildRowData (extractHeaders s (headerRowOf s headerRowCfg))
                (rowVals s r))
            then some (buildRowData (extractHeaders s (headerRowOf s headerRowCfg)) (rowVals s r))
            else Option.none)) ∧
    (∀ r, r ∈ List.range' (startRowOf s headerRowCfg startRowCfg)
          (s.maxRow + 1 - startRowOf s headerRowCfg startRowCfg) →
      (buildRowData (extractHeaders s (headerRowOf s headerRowCfg)) (rowVals s r)
          ∈ extract_excel_data s headerRowCfg startRowCfg
        ↔ 3 ≤ countNonNull
            (buildRowData (extractHeaders s (headerRowOf s headerRowCfg)) (rowVals s r)))) := by
  have heq : extract_excel_data s headerRowCfg startRowCfg
      = (List.range' (startRowOf s headerRowCfg startRowCfg)
          (s.maxRow + 1 - startRowOf s headerRowCfg startRowCfg)).filterMap (fun r =>
            if 3 ≤ countNonNull (buildRowData (extractHeaders s (headerRowOf s headerRowCfg))
                (rowVals s r))
            then some (buildRowData (extractHeaders s (headerRowOf s headerRowCfg)) (rowVals s r))
            else Option.none) := by
    unfold extract_excel_data
    refine filterMap_congr_on _ _ _ ?_
    intro r _
    by_cases hall : (rowVals s r).all isNull = true
    · rw [if_pos hall]
      have hcount := countNonNull_buildRowData_all_null
        (extractHeaders s (headerRowOf s headerRowCfg)) (rowVals s r) hall
      rw [if_neg (by omega)]
    · rw [if_neg hall]
  refine ⟨heq, ?_⟩
  intro r hr
  constructor
  · intro hmem
    rw [heq] at hmem
    obtain ⟨r', _, hsome⟩ := List.mem_filterMap.mp hmem
    by_cases hc : 3 ≤ countNonNull (buildRowData (extractHeaders s (headerRowOf s headerRowCfg))
        (rowVals s r'))
    · rw [if_pos hc] at hsome
      have hrows : buildRowData (extractHeaders s (headerRowOf s headerRowCfg)) (rowVals s r')
          = buildRowData (extractHeaders s (headerRowOf s headerRowCfg)) (rowVals s r) := by
        injection hsome
      rw [hrows] at hc
      exact hc
    · rw [if_neg hc] at hsome
      cases hsome
  · intro hc
    rw [heq]
    refine List.mem_filterMap.mpr ⟨r, hr, ?_⟩
    rw [if_pos hc]

end Revbox
